import Mathlib

/-!
Shallow embedding of the validador-documentos pipeline.

Source files embedded:
  src/agents/validation.py      (validate_document_data_chain and its helpers)
  src/langchain_orchestrator.py (determine_global_status, main_validation_chain_processor)
  src/agents/preprocessing.py   (preprocess_documents_chain, extension dispatch)

Python dates (datetime.date) are modelled by a year/month/day record over Nat,
with day subtraction through proleptic-Gregorian ordinals.  Python strings are
Lean strings; dict lookups with .get are modelled by association-list lookup
returning Option String, where a missing key and a key bound to None coincide
(both behave identically under every .get the source performs).  Calls to
datetime.now().date() are modelled by an explicit today parameter.  The two
external model calls (classification, extraction) are modelled as oracle
fields of the per-document input, since their outputs come from the network.
An uncaught Python exception is modelled by returning none.
-/

namespace Validador

/-- A finding dict appended to validation_errors.  The severity is optional
because the orchestrator builds stage-failure findings that carry only a
field and a message (src/langchain_orchestrator.py lines 131-134, 146-149,
178-181), while the validator helpers always attach one. -/
structure Finding where
  field : String
  message : String
  severity : Option String
deriving Repr, DecidableEq

/-- The ambient mutable state of validate_document_data_chain:
validation_status and validation_errors (src/agents/validation.py lines 8-9). -/
structure VState where
  validation_status : String
  validation_errors : List Finding
deriving Repr, DecidableEq

/-- Initial optimistic state (validation.py lines 8-9). -/
def VState.init : VState := { validation_status := "OK", validation_errors := [] }

/-- Helper add_critical_error (validation.py lines 14-21): append a CRITICAL
finding and set the status to ERROR. -/
def add_critical_error (st : VState) (f msg : String) : VState :=
  { validation_status := "ERROR"
    validation_errors := st.validation_errors ++ [⟨f, msg, some "CRITICAL"⟩] }

/-- Helper add_manual_review_error (validation.py lines 24-32): append a
MANUAL_REVIEW finding and move the status to PENDIENTE_MANUAL only when it is
still OK. -/
def add_manual_review_error (st : VState) (f msg : String) : VState :=
  { validation_status :=
      if st.validation_status = "OK" then "PENDIENTE_MANUAL" else st.validation_status
    validation_errors := st.validation_errors ++ [⟨f, msg, some "MANUAL_REVIEW"⟩] }

/-- Guarded critical append: the ubiquitous source idiom
if cond: add_critical_error(field, message). -/
def critIf (c : Bool) (f msg : String) (st : VState) : VState :=
  if c then add_critical_error st f msg else st

/-- Guarded manual-review append: if cond: add_manual_review_error(...). -/
def manualIf (c : Bool) (f msg : String) (st : VState) : VState :=
  if c then add_manual_review_error st f msg else st

/-! ## Character-list primitives

All Python string operations are modelled over List Char (the String.data of
a Lean string) with structural recursion, so that every definition reduces
inside the kernel. -/

/-- Split at every occurrence of a separator character, keeping empty
pieces, as str.split(sep) does for a one-character separator. -/
def splitOnChar (sep : Char) : List Char → List (List Char)
  | [] => [[]]
  | c :: cs =>
    match splitOnChar sep cs with
    | h :: t => if c == sep then [] :: h :: t else (c :: h) :: t
    | [] => [[c]]

/-- Split at every maximal run boundary of characters satisfying p (the
pieces still include empties; str.split() semantics arise by filtering). -/
def splitOnPred (p : Char → Bool) : List Char → List (List Char)
  | [] => [[]]
  | c :: cs =>
    match splitOnPred p cs with
    | h :: t => if p c then [] :: h :: t else (c :: h) :: t
    | [] => [[c]]

/-- str.strip(): drop whitespace at both ends. -/
def charTrim (cs : List Char) : List Char :=
  ((cs.dropWhile Char.isWhitespace).reverse.dropWhile Char.isWhitespace).reverse

/-- str.lower() character by character. -/
def charLower (cs : List Char) : List Char := cs.map Char.toLower

/-- str.upper() character by character. -/
def charUpper (cs : List Char) : List Char := cs.map Char.toUpper

/-- int(s) over a digit string: all characters must be decimal digits. -/
def digitsToNat? (cs : List Char) : Option Nat :=
  if !cs.isEmpty && cs.all Char.isDigit then
    some (cs.foldl (fun n c => n * 10 + (c.toNat - 48)) 0)
  else none

/-! ## Python dates -/

/-- datetime.date: a calendar date. -/
structure PyDate where
  year : Nat
  month : Nat
  day : Nat
deriving Repr, DecidableEq

/-- Gregorian leap-year rule, as in the datetime module. -/
def isLeapYear (y : Nat) : Bool :=
  (y % 4 == 0 && y % 100 != 0) || y % 400 == 0

/-- Number of days in a month of a given year. -/
def daysInMonth (y m : Nat) : Nat :=
  if m = 2 then (if isLeapYear y then 29 else 28)
  else if m = 4 ∨ m = 6 ∨ m = 9 ∨ m = 11 then 30
  else 31

/-- Days in the months of year y strictly before month m. -/
def daysBeforeMonth (y m : Nat) : Nat :=
  (List.range (m - 1)).foldl (fun acc i => acc + daysInMonth y (i + 1)) 0

/-- Proleptic-Gregorian ordinal of a date, as datetime.date.toordinal:
day 1 is 0001-01-01. -/
def PyDate.toOrdinal (d : PyDate) : Nat :=
  365 * (d.year - 1) + (d.year - 1) / 4 - (d.year - 1) / 100 + (d.year - 1) / 400
    + daysBeforeMonth d.year d.month + d.day

/-- (a - b).days for two dates. -/
def dateDiffDays (a b : PyDate) : Int :=
  (a.toOrdinal : Int) - (b.toOrdinal : Int)

/-- Python date comparison a < b (lexicographic on year, month, day). -/
def PyDate.lt (a b : PyDate) : Bool :=
  (a.year < b.year) ||
    (a.year == b.year &&
      ((a.month < b.month) || (a.month == b.month && a.day < b.day)))

/-- Build a date after validating the ranges datetime enforces
(MINYEAR..MAXYEAR, month 1..12, day within the month). -/
def mkValidDate (y m d : Nat) : Option PyDate :=
  if 1 ≤ y ∧ y ≤ 9999 ∧ 1 ≤ m ∧ m ≤ 12 ∧ 1 ≤ d ∧ d ≤ daysInMonth y m then
    some ⟨y, m, d⟩
  else none

/-! ## Python date-string parsing -/

/-- datetime.strptime(s, "%Y-%m-%d").date(): %Y matches exactly 4 digits
(CPython compiles it to four mandatory digit atoms, so 999-01-01 raises),
%m and %d match 1-2 digits, the separators are literal, trailing characters
are rejected, and the resulting calendar date must be valid. -/
def strptime_Ymd (s : String) : Option PyDate :=
  match splitOnChar '-' s.toList with
  | [ys, ms, ds] =>
    if ys.length = 4 ∧ 1 ≤ ms.length ∧ ms.length ≤ 2
        ∧ 1 ≤ ds.length ∧ ds.length ≤ 2 then
      match digitsToNat? ys, digitsToNat? ms, digitsToNat? ds with
      | some y, some m, some d => mkValidDate y m d
      | _, _, _ => none
    else none
  | _ => none

/-- Two-digit numeric component below a bound (used by the isoformat time
parser below). -/
def twoDigitBelow (s : List Char) (bound : Nat) : Bool :=
  s.length == 2 &&
    (match digitsToNat? s with
     | some n => n < bound
     | none => false)

/-- Hour[:minute[:second[.fraction]]] part of a pre-3.11
datetime.fromisoformat time string: fractions must have 3 or 6 digits. -/
def isoTimeCoreOk (t : List Char) : Bool :=
  match splitOnChar ':' t with
  | [h] => twoDigitBelow h 24
  | [h, m] => twoDigitBelow h 24 && twoDigitBelow m 60
  | [h, m, srest] =>
    twoDigitBelow h 24 && twoDigitBelow m 60 &&
      (match splitOnChar '.' srest with
       | [sec] => twoDigitBelow sec 60
       | [sec, frac] =>
         twoDigitBelow sec 60 && (frac.length == 3 || frac.length == 6)
           && frac.all Char.isDigit
       | _ => false)
  | _ => false

/-- Timezone tail of an isoformat time string: sign already stripped, the
remainder must be HH:MM, HH:MM:SS or HH:MM:SS.ffffff (lengths 5, 8, 15). -/
def isoTzTailOk (z : List Char) : Bool :=
  (z.length == 5 || z.length == 8 || z.length == 15) && isoTimeCoreOk z

/-- A full isoformat time string, possibly carrying a +HH:MM / -HH:MM style
offset. -/
def isoTimeOk (t : List Char) : Bool :=
  match t.findIdx? (fun c => c == '+' || c == '-') with
  | none => isoTimeCoreOk t
  | some i => isoTimeCoreOk (t.take i) && isoTzTailOk (t.drop (i + 1))

/-- datetime.fromisoformat(s).date() as implemented before Python 3.11 (the
source strips a trailing Z itself precisely because this parser rejects it):
the first ten characters must be YYYY-MM-DD with exact widths, optionally
followed by one arbitrary separator character and a valid time string. -/
def fromisoformat_date (s : String) : Option PyDate :=
  let cs := s.toList
  if cs.length < 10 then none
  else
    match splitOnChar '-' (cs.take 10) with
    | [ys, ms, ds] =>
      if ys.length == 4 && ms.length == 2 && ds.length == 2 then
        match digitsToNat? ys, digitsToNat? ms, digitsToNat? ds with
        | some y, some m, some d =>
          match mkValidDate y m d with
          | some date =>
            let rest := cs.drop 10
            if rest.isEmpty then some date
            else if isoTimeOk (rest.drop 1) then some date
            else none
          | none => none
        | _, _, _ => none
      else none
    | _ => none

/-! ## String helpers mirroring the Python string operations used -/

/-- Auxiliary: pattern p is a prefix of the character list s. -/
def charHasPrefixAux : List Char → List Char → Bool
  | [], _ => true
  | _ :: _, [] => false
  | p :: ps, c :: cs => p == c && charHasPrefixAux ps cs

/-- Auxiliary: pattern occurs somewhere inside the character list. -/
def charContainsAux (pat : List Char) : List Char → Bool
  | [] => charHasPrefixAux pat []
  | c :: cs => charHasPrefixAux pat (c :: cs) || charContainsAux pat cs

/-- Python `pat in s` substring test over character lists. -/
def containsSub (s pat : List Char) : Bool :=
  charContainsAux pat s

/-- Python cleanup chain `.strip().replace(".", "").replace("-", "").lower()`
applied to RUT strings throughout validation.py. -/
def cleanRut (s : String) : List Char :=
  charLower ((charTrim s.toList).filter (fun c => !(c == '.' || c == '-')))

/-- Python cleanup chain `.strip().lower()` applied to name fields. -/
def cleanName (s : String) : List Char :=
  charLower (charTrim s.toList)

/-- .strip().lower() applied to the result of a .get(key, default) lookup:
a None value has no .strip attribute, so the chain raises (modelled none). -/
def cleanNameOpt : Option String → Option (List Char)
  | none => none
  | some s => some (cleanName s)

/-- .strip().replace-cleanup.lower() for RUT values from a .get lookup,
with the same AttributeError behavior on None. -/
def cleanRutOpt : Option String → Option (List Char)
  | none => none
  | some s => some (cleanRut s)

/-- The RUN/RUT format regex of validation.py lines 98, 303, 307:
either d{1,2}.d{3}.d{3}-[0-9Kk] or d{7,8}-[0-9Kk], fully anchored. -/
def rutFormatOk (s : String) : Bool :=
  match splitOnChar '-' s.toList with
  | [left, v] =>
    (v.length == 1 && v.all (fun c => c.isDigit || c == 'K' || c == 'k')) &&
      ((left.all Char.isDigit && (left.length == 7 || left.length == 8)) ||
        (match splitOnChar '.' left with
         | [a, b, c] =>
           a.all Char.isDigit && 1 ≤ a.length && a.length ≤ 2 &&
             b.all Char.isDigit && b.length == 3 &&
             c.all Char.isDigit && c.length == 3
         | _ => false))
  | _ => false

/-- One alternative of the phone regex body: 9 then 8 digits (mobile), or a
digit 2-8 then 7 digits (fixed line). -/
def phoneCoreOk : List Char → Bool
  | '9' :: rest => rest.length == 8 && rest.all Char.isDigit
  | c :: rest => ('2' ≤ c && c ≤ '8') && rest.length == 7 && rest.all Char.isDigit
  | [] => false

/-- The anchored Chilean phone regex of validation.py line 291:
(?:56)?(?:9 d{8}|[2-8] d{7}), including the backtracking on the optional
country code that a regex engine performs. -/
def phoneFormatOk (s : List Char) : Bool :=
  match s with
  | '5' :: '6' :: rest => phoneCoreOk rest || phoneCoreOk ('5' :: '6' :: rest)
  | cs => phoneCoreOk cs

/-- Python phone cleanup of validation.py line 283: remove spaces, dashes,
parentheses and plus signs. -/
def cleanPhone (s : String) : List Char :=
  s.toList.filter (fun c => !(c == ' ' || c == '-' || c == '(' || c == ')' || c == '+'))

/-- Exponent digits of a float literal: optional sign then at least one
digit. -/
def floatExpDigitsOk (cs : List Char) : Bool :=
  let body := match cs with
    | '+' :: r => r
    | '-' :: r => r
    | r => r
  !body.isEmpty && body.all Char.isDigit

/-- Optional exponent part of a float literal. -/
def floatExpPartOk : List Char → Bool
  | [] => true
  | 'e' :: rest => floatExpDigitsOk rest
  | 'E' :: rest => floatExpDigitsOk rest
  | _ => false

/-- Digits [. digits] [exponent], with at least one mantissa digit. -/
def floatBodyOk (cs : List Char) : Bool :=
  let ip := cs.takeWhile Char.isDigit
  let rest := cs.dropWhile Char.isDigit
  match rest with
  | [] => !ip.isEmpty
  | '.' :: r2 =>
    let fp := r2.takeWhile Char.isDigit
    let r3 := r2.dropWhile Char.isDigit
    (!ip.isEmpty || !fp.isEmpty) && floatExpPartOk r3
  | _ => !ip.isEmpty && floatExpPartOk rest

/-- Whether float(s) succeeds in Python: optional surrounding whitespace and
sign, then a decimal literal, inf, infinity or nan (case-insensitive).
Underscore digit grouping is not modelled (no monetary input uses it). -/
def pythonFloatOk (s : List Char) : Bool :=
  let t := charLower (charTrim s)
  let body : List Char := match t with
    | '+' :: r => r
    | '-' :: r => r
    | r => r
  body == "inf".toList || body == "infinity".toList || body == "nan".toList ||
    floatBodyOk body

/-- The monetary cleanup of validation.py line 334:
str(v).replace(".", "").replace(",", ".") -/
def moneyClean (v : String) : List Char :=
  (v.toList.filter (fun c => c != '.')).map (fun c => if c == ',' then '.' else c)

/-! ## Data model of the validator inputs -/

/-- The client_data dict (shape fixed by src/main.py ClientData, delivered
through model_dump, which emits every key).  A field holds none when the
caller bound it to None; .get(key, default) then returns None itself — not
the default — and the .strip() chains of the validator raise on it. -/
structure ClientData where
  solicitud_fecha_curse : Option String
  cliente_nombres : Option String
  cliente_apellido_paterno : Option String
  cliente_apellido_materno : Option String
  cliente_rut : Option String
deriving Repr, DecidableEq

/-- Python truthiness of an optional string: None and the empty string are
falsy. -/
def truthyOpt : Option String → Bool
  | none => false
  | some s => !s.toList.isEmpty

/-- One entry of the REFERENCIAS_PERSONALES extracted list. -/
structure RefEntry where
  nombre_referencia : Option String
  numero_telefono : Option String
deriving Repr, DecidableEq

/-- The extracted_data argument: either a JSON-object field map (string
values; a key that is absent or bound to null is simply missing) or, for the
references type, a JSON array of entries. -/
inductive ExtractedData where
  | dict (fields : List (String × Option String))
  | list (refs : List RefEntry)
deriving Repr, DecidableEq

/-- extracted_data.get(key) with no default, on the dict shape (first
binding wins, modelling a dict with unique keys): an absent key and a key
bound to null both yield None, otherwise the bound string. -/
def EDget (fields : List (String × Option String)) (k : String) : Option String :=
  match fields.find? (fun p => p.1 == k) with
  | none => none
  | some p => p.2

/-- extracted_data.get(key, ""): an absent key yields the empty-string
default, but a key bound to null yields None itself — the .strip() the
source then applies raises AttributeError. -/
def EDgetD (fields : List (String × Option String)) (k : String) : Option String :=
  match fields.find? (fun p => p.1 == k) with
  | none => some ""
  | some p => p.2

/-- Truthiness of extracted_data.get(key). -/
def EDtruthy (fields : List (String × Option String)) (k : String) : Bool :=
  truthyOpt (EDget fields k)

/-- Value of extracted_data.get(key, default ""): used where the source
indexes after a truthiness test. -/
def EDval (fields : List (String × Option String)) (k : String) : String :=
  (EDget fields k).getD ""

/-! ## Curse-date preprocessing (validation.py lines 34-58) -/

/-- Parse one raw solicitud_fecha_curse string exactly as the source does:
if it ends with Z, strip every Z and call fromisoformat; otherwise call
fromisoformat directly; on failure fall back to strptime with %Y-%m-%d on
the original string. -/
def parseCurseRaw (raw : String) : Option PyDate :=
  let iso :=
    if raw.toList.getLast? == some 'Z' then
      fromisoformat_date (String.mk (raw.toList.filter (fun c => c != 'Z')))
    else fromisoformat_date raw
  match iso with
  | some d => some d
  | none => strptime_Ymd raw

/-- solicitud_fecha_curse_obj: parsed only when the raw value is truthy. -/
def curse_date_of (cd : ClientData) : Option PyDate :=
  if truthyOpt cd.solicitud_fecha_curse then
    parseCurseRaw (cd.solicitud_fecha_curse.getD "")
  else none

/-- The CRITICAL finding added when a truthy curse date fails to parse
(validation.py line 53). -/
def curseErrorStep (cd : ClientData) (st : VState) : VState :=
  critIf (truthyOpt cd.solicitud_fecha_curse && (curse_date_of cd).isNone)
    "solicitud_fecha_curse"
    "Invalid format for credit curse date. Expected ISO 8601 (e.g., 2025-05-30T00:00:00.000Z) or YYYY-MM-DD."
    st

/-! ## CEDULA_IDENTIDAD branch (validation.py lines 62-130) -/

/-- Presence loop over the critical mandatory fields of a branch. -/
def criticalFieldsStep (ed : List (String × Option String)) (fields : List String)
    (msgTail : String) (st : VState) : VState :=
  fields.foldl
    (fun st f =>
      critIf (!EDtruthy ed f) f (s!"Critical field {f} not found or empty" ++ msgTail) st)
    st

/-- Name and RUT cross-check against client_data (validation.py lines 71-93):
each comparison fires only when both the extracted and the client value are
non-empty after cleanup.  Each of the eight .get(key, "") lookups feeds a
.strip() chain, which raises AttributeError when the key is bound to None
(model_dump always emits the client keys, and the extractor binds unknown
fields to null), so the step is fallible. -/
def cedulaMatchStep (ed : List (String × Option String)) (cd : ClientData)
    (st : VState) : Option VState :=
  match cleanNameOpt cd.cliente_nombres, cleanNameOpt cd.cliente_apellido_paterno,
      cleanNameOpt cd.cliente_apellido_materno, cleanRutOpt cd.cliente_rut,
      cleanNameOpt (EDgetD ed "nombres"), cleanNameOpt (EDgetD ed "apellido_paterno"),
      cleanNameOpt (EDgetD ed "apellido_materno"), cleanRutOpt (EDgetD ed "run") with
  | some cliente_nombres_req, some cliente_apellido_paterno_req,
    some cliente_apellido_materno_req, some cliente_rut_req,
    some extracted_nombres, some extracted_apellido_paterno,
    some extracted_apellido_materno, some extracted_run_clean =>
    let st := critIf
      (!extracted_nombres.isEmpty && !cliente_nombres_req.isEmpty &&
        extracted_nombres != cliente_nombres_req)
      "nombres" "Client Full Name does not match extracted value." st
    let st := critIf
      (!extracted_apellido_paterno.isEmpty && !cliente_apellido_paterno_req.isEmpty &&
        extracted_apellido_paterno != cliente_apellido_paterno_req)
      "apellido_paterno" "Client Paternal Last Name does not match extracted value." st
    let st := critIf
      (!extracted_apellido_materno.isEmpty && !cliente_apellido_materno_req.isEmpty &&
        extracted_apellido_materno != cliente_apellido_materno_req)
      "apellido_materno" "Client Maternal Last Name does not match extracted value." st
    some (critIf
      (!extracted_run_clean.isEmpty && !cliente_rut_req.isEmpty &&
        extracted_run_clean != cliente_rut_req)
      "run" "Client RUT does not match extracted value." st)
  | _, _, _, _, _, _, _, _ => none

/-- RUN format check (validation.py lines 97-99). -/
def cedulaRunFormatStep (ed : List (String × Option String)) (st : VState) : VState :=
  if EDtruthy ed "run" then
    critIf (!rutFormatOk (EDval ed "run")) "run_format" "Invalid RUN format." st
  else st

/-- Expiration-date rule (validation.py lines 102-118): compare with the
curse date when available, otherwise fall back to the current date. -/
def cedulaVencStep (ed : List (String × Option String)) (curse : Option PyDate)
    (today : PyDate) (st : VState) : VState :=
  if EDtruthy ed "fecha_vencimiento" then
    match strptime_Ymd (EDval ed "fecha_vencimiento") with
    | some venc =>
      match curse with
      | some c =>
        critIf (PyDate.lt venc c) "fecha_vencimiento"
          "ID card expired before the credit curse date." st
      | none =>
        critIf (PyDate.lt venc today) "fecha_vencimiento"
          "ID card is expired as of today." st
    | none =>
      add_critical_error st "fecha_vencimiento"
        "Invalid date format for fecha_vencimiento. Expected YYYY-MM-DD."
  else
    add_critical_error st "fecha_vencimiento" "Expiration date not found on ID card."

/-- Format check over the remaining date fields (validation.py lines 121-126). -/
def cedulaDatesStep (ed : List (String × Option String)) (st : VState) : VState :=
  ["fecha_nacimiento", "fecha_emision"].foldl
    (fun st f =>
      if EDtruthy ed f then
        critIf (strptime_Ymd (EDval ed f)).isNone f
          (s!"Invalid date format for {f}. Expected YYYY-MM-DD.") st
      else st)
    st

/-- Gender check (validation.py lines 129-130). -/
def cedulaSexoStep (ed : List (String × Option String)) (st : VState) : VState :=
  manualIf
    (EDtruthy ed "sexo" &&
      !(charUpper (EDval ed "sexo").toList == "M".toList ||
        charUpper (EDval ed "sexo").toList == "F".toList))
    "sexo" "Gender is not M or F." st

/-- Whole CEDULA_IDENTIDAD branch in source order; the name cross-check can
raise, which aborts the branch. -/
def cedulaBranch (ed : List (String × Option String)) (cd : ClientData)
    (curse : Option PyDate) (today : PyDate) (st : VState) : Option VState :=
  let st := criticalFieldsStep ed
    ["nombre_completo", "run", "fecha_nacimiento", "fecha_vencimiento"] "." st
  match cedulaMatchStep ed cd st with
  | none => none
  | some st =>
    let st := cedulaRunFormatStep ed st
    let st := cedulaVencStep ed curse today st
    let st := cedulaDatesStep ed st
    some (cedulaSexoStep ed st)

/-! ## COMPROBANTE_DOMICILIO branch (validation.py lines 133-198) -/

/-- Emission-date rule (validation.py lines 142-158): at most 60 days before
the curse date and not in its future; degrades to MANUAL_REVIEW when the
curse date is unavailable. -/
def domicilioEmisionStep (ed : List (String × Option String)) (curse : Option PyDate)
    (st : VState) : VState :=
  if EDtruthy ed "fecha_emision" then
    match strptime_Ymd (EDval ed "fecha_emision") with
    | some em =>
      match curse with
      | some c =>
        let days_diff_emission := dateDiffDays c em
        if days_diff_emission < 0 then
          add_critical_error st "fecha_emision"
            "Proof of address emission date is in the future relative to curse date."
        else
          critIf (days_diff_emission > 60) "fecha_emision"
            "Proof of address emission date is too old. Maximum allowed: 60 days." st
      | none =>
        add_manual_review_error st "fecha_emision"
          "Cannot validate emission date against curse date due to missing/invalid curse date."
    | none =>
      add_critical_error st "fecha_emision"
        "Invalid emission date format. Expected YYYY-MM-DD."
  else
    add_critical_error st "fecha_emision" "Emission date not found on Proof of Address."

/-- Expiry-date rule (validation.py lines 162-174): at most 10 days expired
at curse date; degrades to MANUAL_REVIEW without a curse date; silently
skipped when the field is absent. -/
def domicilioVencStep (ed : List (String × Option String)) (curse : Option PyDate)
    (st : VState) : VState :=
  if EDtruthy ed "fecha_vencimiento" then
    match strptime_Ymd (EDval ed "fecha_vencimiento") with
    | some venc =>
      match curse with
      | some c =>
        critIf (dateDiffDays c venc > 10) "fecha_vencimiento"
          "Proof of address expired before curse date. Maximum allowed: 10 days." st
      | none =>
        add_manual_review_error st "fecha_vencimiento"
          "Cannot validate expiration date against curse date due to missing/invalid curse date."
    | none =>
      add_critical_error st "fecha_vencimiento"
        "Invalid expiration date format. Expected YYYY-MM-DD."
  else st

/-- Name cross-check of the domicilio branch (validation.py lines 180-198):
identical to the cedula one except that the two RUT cleanups (lines 183 and
188) are computed but never compared — they still raise AttributeError on a
None value, so they participate in the fallibility. -/
def domicilioMatchStep (ed : List (String × Option String)) (cd : ClientData)
    (st : VState) : Option VState :=
  match cleanNameOpt cd.cliente_nombres, cleanNameOpt cd.cliente_apellido_paterno,
      cleanNameOpt cd.cliente_apellido_materno, cleanRutOpt cd.cliente_rut,
      cleanNameOpt (EDgetD ed "nombres"), cleanNameOpt (EDgetD ed "apellido_paterno"),
      cleanNameOpt (EDgetD ed "apellido_materno"), cleanRutOpt (EDgetD ed "run") with
  | some cliente_nombres_req, some cliente_apellido_paterno_req,
    some cliente_apellido_materno_req, some x,
    some extracted_nombres, some extracted_apellido_paterno,
    some extracted_apellido_materno, some y =>
    let st := critIf
      (!extracted_nombres.isEmpty && !cliente_nombres_req.isEmpty &&
        extracted_nombres != cliente_nombres_req)
      "nombres" "Client Full Name does not match extracted value." st
    let st := critIf
      (!extracted_apellido_paterno.isEmpty && !cliente_apellido_paterno_req.isEmpty &&
        extracted_apellido_paterno != cliente_apellido_paterno_req)
      "apellido_paterno" "Client Paternal Last Name does not match extracted value." st
    some (critIf
      (!extracted_apellido_materno.isEmpty && !cliente_apellido_materno_req.isEmpty &&
        extracted_apellido_materno != cliente_apellido_materno_req)
      "apellido_materno" "Client Maternal Last Name does not match extracted value." st)
  | _, _, _, _, _, _, _, _ => none

/-- Whole COMPROBANTE_DOMICILIO branch in source order; the trailing name
cross-check can raise. -/
def domicilioBranch (ed : List (String × Option String)) (cd : ClientData)
    (curse : Option PyDate) (st : VState) : Option VState :=
  let st := criticalFieldsStep ed
    ["nombre_titular", "direccion_completa", "empresa_emisora", "fecha_emision"] "." st
  let st := domicilioEmisionStep ed curse st
  let st := domicilioVencStep ed curse st
  domicilioMatchStep ed cd st

/-! ## CERTIFICADO_DEUDA branch (validation.py lines 201-257) -/

/-- Holder-RUT cross-check (validation.py lines 209-215): mismatch is
CRITICAL; an empty cleaned holder RUT is CRITICAL through the elif.  The
two .get(key, "") lookups feed .strip() chains that raise AttributeError on
a None value (null-bound run_titular, None client RUT), so the step is
fallible. -/
def deudaRunStep (ed : List (String × Option String)) (cd : ClientData)
    (st : VState) : Option VState :=
  match cleanRutOpt (EDgetD ed "run_titular"), cleanRutOpt cd.cliente_rut with
  | some extracted_run_titular_clean, some cliente_rut_req =>
    some (
      if !extracted_run_titular_clean.isEmpty && !cliente_rut_req.isEmpty &&
          extracted_run_titular_clean != cliente_rut_req then
        add_critical_error st "run_titular"
          "Certificate holder RUT does not match client RUT."
      else if extracted_run_titular_clean.isEmpty then
        add_critical_error st "run_titular" "Certificate holder RUT not found for validation."
      else st)
  | _, _ => none

/-- Emission-date equality rule (validation.py lines 219-232): the emission
date must equal the curse date exactly; degrades to MANUAL_REVIEW without a
curse date. -/
def deudaEmisionStep (ed : List (String × Option String)) (curse : Option PyDate)
    (st : VState) : VState :=
  if EDtruthy ed "fecha_emision" then
    match strptime_Ymd (EDval ed "fecha_emision") with
    | some em =>
      match curse with
      | some c =>
        critIf (em != c) "fecha_emision"
          "Debt certificate emission date must be exactly the credit curse date." st
      | none =>
        add_manual_review_error st "fecha_emision"
          "Cannot validate emission date against curse date due to missing/invalid curse date."
    | none =>
      add_critical_error st "fecha_emision"
        "Invalid emission date format. Expected YYYY-MM-DD."
  else
    add_critical_error st "fecha_emision" "Emission date not found on Debt Certificate."

/-- Debt-status rule (validation.py lines 245-257): sin anotaciones passes,
otherwise con anotaciones is CRITICAL, anything else non-empty is
MANUAL_REVIEW, and a missing value is CRITICAL. -/
def deudaEstadoStep (ed : List (String × Option String)) (st : VState) : VState :=
  if EDtruthy ed "estado_deuda" then
    let estado_lower := charLower (EDval ed "estado_deuda").toList
    if containsSub estado_lower "sin anotaciones".toList then st
    else if containsSub estado_lower "con anotaciones".toList then
      add_critical_error st "estado_deuda"
        "The debt certificate indicates CON ANOTACIONES, which is a critical error."
    else
      add_manual_review_error st "estado_deuda"
        "Debt status is ambiguous. Manual review needed (expected SIN ANOTACIONES or CON ANOTACIONES)."
  else
    add_critical_error st "estado_deuda" "Debt status not found on Debt Certificate."

/-- Whole CERTIFICADO_DEUDA branch in source order; the holder-RUT check can
raise, which aborts the branch. -/
def deudaBranch (ed : List (String × Option String)) (cd : ClientData)
    (curse : Option PyDate) (st : VState) : Option VState :=
  let st := criticalFieldsStep ed
    ["nombre_titular", "run_titular", "estado_deuda", "fecha_emision"] "." st
  match deudaRunStep ed cd st with
  | none => none
  | some st =>
    let st := deudaEmisionStep ed curse st
    some (deudaEstadoStep ed st)

/-! ## REFERENCIAS_PERSONALES branch (validation.py lines 261-293) -/

/-- Per-reference checks (validation.py lines 270-293), indexed from 1 in
the finding field names. -/
def refEntryStep (st : VState) (p : Nat × RefEntry) : VState :=
  let i := p.1
  let ref := p.2
  let st :=
    critIf (!truthyOpt ref.nombre_referencia)
      (s!"reference_{i + 1}.nombre_referencia") "Mandatory reference name not found." st
  let telefono := ref.numero_telefono.getD ""
  if telefono.toList.isEmpty then
    add_critical_error st (s!"reference_{i + 1}.numero_telefono")
      "Mandatory phone number not found."
  else
    critIf (!phoneFormatOk (cleanPhone telefono))
      (s!"reference_{i + 1}.numero_telefono") "Invalid Chilean phone format." st

/-- List-shaped branch body: the minimum-count rule then the per-entry
loop. -/
def referenciasBranch (refs : List RefEntry) (st : VState) : VState :=
  let st :=
    critIf (refs.length < 2) "count"
      "At least 2 references are required, but fewer were found." st
  refs.enum.foldl refEntryStep st

/-! ## LIQUIDACION_SUELDO branch (validation.py lines 296-339) -/

/-- Employee and company RUT format checks (validation.py lines 302-308). -/
def liquidacionRutStep (ed : List (String × Option String)) (st : VState) : VState :=
  let st :=
    if EDtruthy ed "run_empleado" then
      critIf (!rutFormatOk (EDval ed "run_empleado")) "run_empleado"
        "Invalid employee RUN format." st
    else st
  if EDtruthy ed "rut_empresa" then
    critIf (!rutFormatOk (EDval ed "rut_empresa")) "rut_empresa"
      "Invalid company RUT format." st
  else st

/-- Calendar-month difference used by the payroll freshness rule
(validation.py lines 315-316): day numbers are ignored. -/
def monthsDiff (c em : PyDate) : Int :=
  ((c.year : Int) - (em.year : Int)) * 12 + ((c.month : Int) - (em.month : Int))

/-- Payroll freshness rule (validation.py lines 310-329): more than 3 months
old or in a future month is CRITICAL, exactly 3 months old is MANUAL_REVIEW;
without a curse date it falls back to a 90-day age check against the current
date. -/
def liquidacionEmisionStep (ed : List (String × Option String)) (curse : Option PyDate)
    (today : PyDate) (st : VState) : VState :=
  if EDtruthy ed "fecha_emision" then
    match strptime_Ymd (EDval ed "fecha_emision") with
    | some em =>
      match curse with
      | some c =>
        let md := monthsDiff c em
        if md > 3 then
          add_critical_error st "fecha_emision"
            "Payroll slip is too old regarding curse date. Maximum allowed: 3 months."
        else if md < 0 then
          add_critical_error st "fecha_emision"
            "Payroll slip emission date is in the future relative to curse date."
        else
          manualIf (md > 2) "fecha_emision"
            "Payroll slip is 3 months old regarding curse date. Review recommended." st
      | none =>
        let days_old := dateDiffDays today em
        critIf (days_old > 90) "fecha_emision"
          "Payroll slip is too old. Maximum allowed: 90 days." st
    | none =>
      add_critical_error st "fecha_emision" "Invalid emission date format."
  else st

/-- Monetary-field loop (validation.py lines 331-339): a present value that
does not survive the thousands-separator cleanup as a float is
MANUAL_REVIEW; an absent value is CRITICAL. -/
def liquidacionMontosStep (ed : List (String × Option String)) (st : VState) : VState :=
  ["sueldo_bruto", "sueldo_liquido", "total_descuentos", "total_imposiciones"].foldl
    (fun st f =>
      match EDget ed f with
      | some v =>
        manualIf (!pythonFloatOk (moneyClean v))
          f (s!"Value for {f} is not a valid number and requires manual review.") st
      | none =>
        add_critical_error st f
          (s!"Critical field {f} not found or empty in Payroll Slip."))
    st

/-- Whole LIQUIDACION_SUELDO branch in source order. -/
def liquidacionBranch (ed : List (String × Option String)) (curse : Option PyDate)
    (today : PyDate) (st : VState) : VState :=
  let st := criticalFieldsStep ed
    ["nombre_empleado", "run_empleado", "rut_empresa", "nombre_empresa", "cargo",
      "periodo", "fecha_emision", "sueldo_bruto", "sueldo_liquido"]
    " in Payroll Slip." st
  let st := liquidacionRutStep ed st
  let st := liquidacionEmisionStep ed curse today st
  liquidacionMontosStep ed st

/-! ## Top-level validator (validation.py lines 6-360) -/

/-- validate_document_data_chain.  The today parameter stands for
datetime.now().date(); it is consulted only by the two fallback branches.
The result is none exactly when the source would raise: a list-shaped
extracted_data fed to a branch that performs dict lookups on it, or a
.get(key, "").strip() chain hitting a None value in the cedula/domicilio
name cross-checks or the certificado holder-RUT check. -/
def validate_document_data_chain (doc_type : String) (extracted_data : ExtractedData)
    (client_data : ClientData) (today : PyDate) : Option VState :=
  let st := VState.init
  let curse := curse_date_of client_data
  let st := curseErrorStep client_data st
  if doc_type == "CEDULA_IDENTIDAD" then
    match extracted_data with
    | .dict ed => cedulaBranch ed client_data curse today st
    | .list _ => none
  else if doc_type == "COMPROBANTE_DOMICILIO" then
    match extracted_data with
    | .dict ed => domicilioBranch ed client_data curse st
    | .list _ => none
  else if doc_type == "CERTIFICADO_DEUDA" then
    match extracted_data with
    | .dict ed => deudaBranch ed client_data curse st
    | .list _ => none
  else if doc_type == "REFERENCIAS_PERSONALES" then
    match extracted_data with
    | .list refs => some (referenciasBranch refs st)
    | .dict _ =>
      some (add_critical_error st "extracted_data" "References were not extracted as a list.")
  else if doc_type == "LIQUIDACION_SUELDO" then
    match extracted_data with
    | .dict ed => some (liquidacionBranch ed curse today st)
    | .list _ => none
  else if doc_type == "OTRO" || doc_type == "unknown" then
    some (add_manual_review_error st "document_type"
      "Unknown or unclassified document type. Requires manual review.")
  else
    some (add_manual_review_error st "document_type"
      (s!"Document type {doc_type} recognized but requires manual validation."))

/-! ## Aggregation (langchain_orchestrator.py lines 18-56) -/

/-- The four counters of determine_global_status. -/
structure StatusCounts where
  ok_count : Nat
  error_count : Nat
  pending_manual_count : Nat
  other_count : Nat
deriving Repr, DecidableEq

/-- Status class counted as OK (line 33). -/
def isOkStatus (s : String) : Bool := s == "OK" || s == "APROBADO"

/-- Status class counted as error (line 35). -/
def isErrorStatus (s : String) : Bool := s == "ERROR" || s == "FAILED_CRITICAL_ERROR"

/-- Status class counted as pending manual review (line 37). -/
def isPendingStatus (s : String) : Bool :=
  s == "PENDIENTE_MANUAL" || s == "PENDIENTE_REVISION_MANUAL"

/-- doc_info.get(validation_status, ERROR) for one entry: a missing key
defaults to ERROR (line 31). -/
def statusOrDefault : Option String → String
  | none => "ERROR"
  | some s => s

/-- Counting step of the aggregation loop (lines 30-40). -/
def countStatuses (c : StatusCounts) (vs0 : Option String) : StatusCounts :=
  let vs := statusOrDefault vs0
  if isOkStatus vs then { c with ok_count := c.ok_count + 1 }
  else if isErrorStatus vs then { c with error_count := c.error_count + 1 }
  else if isPendingStatus vs then
    { c with pending_manual_count := c.pending_manual_count + 1 }
  else { c with other_count := c.other_count + 1 }

/-- determine_global_status over the per-document validation statuses, in
map iteration order; each element is the optional validation_status of one
document entry. -/
def determine_global_status (document_results : List (Option String)) : String :=
  if document_results.isEmpty then "RECHAZADA_REVISION_AUTOMATICA"
  else
    let c := document_results.foldl countStatuses ⟨0, 0, 0, 0⟩
    let total_docs := document_results.length
    if c.pending_manual_count > 0 || c.other_count > 0 then "PENDIENTE_REVISION_MANUAL"
    else if c.ok_count == total_docs then "CURSADO"
    else if c.error_count == total_docs then "RECHAZADA_REVISION_AUTOMATICA"
    else "PENDIENTE_REVISION_MANUAL"

/-! ## Preprocessing (preprocessing.py lines 41-253) -/

/-- os.path.basename for posix paths. -/
def basenameStr (p : String) : String :=
  String.mk ((splitOnChar '/' p.toList).getLastD p.toList)

/-- os.path.splitext(p) second component: the extension starts at the last
dot of the basename, provided some earlier character of the basename is not
a dot (leading dots never open an extension). -/
def splitextExt (p : String) : List Char :=
  let cs := (basenameStr p).toList
  match cs.reverse.findIdx? (fun c => c == '.') with
  | none => []
  | some ridx =>
    let i := cs.length - 1 - ridx
    if (cs.take i).any (fun c => c != '.') then cs.drop i else []

/-- Disposition of the external PDF handling of one file (PyMuPDF pages plus
the OCR model): some page had digital text whose concatenation is t, or no
page did and the OCR model answered llmText for the rasterized pages, or the
file had no usable pages, or an exception occurred. -/
inductive PdfRead where
  | digital (text : String)
  | scanned (llmText : String)
  | empty
  | failure (msg : String)
deriving Repr, DecidableEq

/-- One preprocessing input: the path handed to the loop plus oracles for
the two external collaborators. image_ocr is the OCR answer when the file is
handled as a direct image (none = exception). -/
structure PreDoc where
  path : String
  pdf_read : PdfRead
  image_ocr : Option String
deriving Repr, DecidableEq

/-- Per-document preprocessing record (preprocessing.py lines 245-250). -/
structure PreRecord where
  raw_text : Option String
  status : String
  error_message : Option String
deriving Repr, DecidableEq

/-- Python s.strip() yields a falsy value. -/
def blankStrip (s : String) : Bool := (charTrim s.toList).isEmpty

/-- Whitespace normalization of line 238: join(split()) collapses runs. -/
def normalizeWs (s : String) : String :=
  String.mk (List.intercalate [' ']
    ((splitOnPred Char.isWhitespace s.toList).filter (fun w => !w.isEmpty)))

/-- Processing of one document (body of the loop in preprocessing.py lines
55-251): dispatch on the lowercased filename extension, with the external
outcomes supplied by the oracles. -/
def preprocess_one (d : PreDoc) : PreRecord :=
  let ext := charLower (splitextExt d.path)
  let extStr := String.mk ext
  let res : String × String × Option String :=
    if ext == ".pdf".toList then
      match d.pdf_read with
      | .digital t => (t, "processed_digital_pdf", none)
      | .scanned llm =>
        if !blankStrip llm then (llm, "processed_llm_ocr", none)
        else (llm, "no_text_found_by_llm", some "El LLM no pudo extraer texto del PDF escaneado.")
      | .empty => ("", "no_content", some "El PDF no contiene texto digital ni imagenes procesables.")
      | .failure m => ("", "processing_failed", some m)
    else if ext == ".jpg".toList || ext == ".jpeg".toList || ext == ".png".toList then
      match d.image_ocr with
      | some llm =>
        if !blankStrip llm then (llm, "processed_llm_ocr", none)
        else (llm, "no_text_found_by_llm", some "El LLM no pudo extraer texto de la imagen directa.")
      | none => ("", "processing_failed", some "Error general al procesar con LLM multimodal.")
    else ("", "unsupported_format",
      some (s!"Formato de archivo no soportado para preprocesamiento: {extStr}"))
  let content := if !res.1.toList.isEmpty then normalizeWs res.1 else res.1
  { raw_text := if !content.toList.isEmpty then some content else none
    status := res.2.1
    error_message := res.2.2 }

/-- preprocess_documents_chain: a record per input, keyed by basename. -/
def preprocess_documents_chain (docs : List PreDoc) : List (String × PreRecord) :=
  docs.map (fun d => (basenameStr d.path, preprocess_one d))

/-! ## Orchestrator (langchain_orchestrator.py lines 107-230) -/

/-- The content types the extraction agent accepts
(extraction.py lines 46-65); also the supported kinds named in the request
contract. -/
def supportedContentKind (ct : String) : Bool :=
  ct == "application/pdf" || ct == "image/jpeg" || ct == "image/png"

/-- One document of the request payload (src/main.py Document): the endpoint
hands these pydantic objects to the orchestrator, which forwards them
unchanged as documents_base64_payload. -/
structure DocumentBase64 where
  filename : String
  tipo : String
  base64_content : String
  content_type : String
deriving Repr, DecidableEq

/-- The accumulated doc_info dict for one document at the end of its
processing.  Fields added only by later stages are optional: they stay none
when the pipeline stopped before that stage ever updated the dict. -/
structure DocRecord where
  raw_text : Option String
  status : String
  error_message : Option String
  doc_type : Option String
  classification_status : Option String
  extraction_status : Option String
  validation_status : String
  validation_errors : List Finding
deriving Repr, DecidableEq

/-- What preprocess_documents_chain computes on the payload the orchestrator
actually hands it (langchain_orchestrator.py line 122): its loop opens with
doc_id = os.path.basename(doc_path) on each element (preprocessing.py line
56, before the per-document try at line 63), and os.path.basename applies
os.fspath, which accepts only str, bytes or os.PathLike and raises TypeError
on a pydantic model instance.  So the chain returns the empty result dict
for an empty payload and raises on every non-empty one. -/
def preprocess_documents_chain_payload (docs : List DocumentBase64) :
    Option (List (String × PreRecord)) :=
  match docs with
  | [] => some []
  | _ :: _ => none

/-- The whole orchestrator result: the global status and document_results. -/
structure OrchestratorResult where
  validation_status : String
  document_results : List (String × DocRecord)
deriving Repr, DecidableEq

/-- main_validation_chain_processor (langchain_orchestrator.py lines
107-230) as wired: Step 1 feeds the raw payload objects to the path-based
preprocessing chain.  When that returns — only on the empty payload, with
the empty dict — the per-document loop iterates zero times,
final_document_results stays empty and determine_global_status is applied to
it; when it raises (every non-empty payload) the top-level except at line
215 returns FAILED_CRITICAL_ERROR carrying the still-empty
final_document_results.  The classification, extraction and validation
stages of the loop are unreachable either way. -/
def main_validation_chain_processor (docs : List DocumentBase64) :
    OrchestratorResult :=
  match preprocess_documents_chain_payload docs with
  | some _ => ⟨determine_global_status [], []⟩
  | none => ⟨"FAILED_CRITICAL_ERROR", []⟩

/-! ## Specification-level predicates -/

/-- At least one finding of the given severity. -/
def hasSev (l : List Finding) (sev : String) : Bool :=
  l.any (fun f => f.severity == some sev)

/-- Every finding carries severity CRITICAL or MANUAL_REVIEW. -/
def allGoodSev (l : List Finding) : Bool :=
  l.all (fun f => f.severity == some "CRITICAL" || f.severity == some "MANUAL_REVIEW")

/-- The status/severity coupling maintained by the two validator helpers:
ERROR exactly when a CRITICAL finding exists, PENDIENTE_MANUAL exactly when
MANUAL_REVIEW findings exist without any CRITICAL one, OK exactly when the
finding list is empty, and every finding has a recognized severity. -/
def Inv (st : VState) : Prop :=
  (st.validation_status = "ERROR" ↔ hasSev st.validation_errors "CRITICAL" = true) ∧
    (st.validation_status = "PENDIENTE_MANUAL" ↔
      (hasSev st.validation_errors "CRITICAL" = false ∧
        hasSev st.validation_errors "MANUAL_REVIEW" = true)) ∧
    (st.validation_status = "OK" ↔ st.validation_errors = []) ∧
    allGoodSev st.validation_errors = true

instance (st : VState) : Decidable (Inv st) := by
  unfold Inv; infer_instance

/-- The statuses the aggregation loop recognizes (the union of its three
counted classes). -/
def recognizedStatus (s : String) : Bool :=
  isOkStatus s || isErrorStatus s || isPendingStatus s

/-- Effective-status class predicates over optional entries, matching the
branch order of the counting loop. -/
def classOkOpt (v : Option String) : Bool := isOkStatus (statusOrDefault v)

/-- Error class of an optional status entry. -/
def classErrOpt (v : Option String) : Bool := isErrorStatus (statusOrDefault v)

/-- Pending class of an optional status entry. -/
def classPendOpt (v : Option String) : Bool := isPendingStatus (statusOrDefault v)

/-- Unrecognized class of an optional status entry. -/
def classOtherOpt (v : Option String) : Bool := !recognizedStatus (statusOrDefault v)

/-! # Theorems

## Status/severity invariant machinery -/

theorem hasSev_append (l : List Finding) (g : Finding) (sev : String) :
    hasSev (l ++ [g]) sev = (hasSev l sev || g.severity == some sev) := by
  simp [hasSev]

theorem allGoodSev_append (l : List Finding) (g : Finding) :
    allGoodSev (l ++ [g])
      = (allGoodSev l && (g.severity == some "CRITICAL" || g.severity == some "MANUAL_REVIEW")) := by
  simp [allGoodSev]

theorem inv_init : Inv VState.init := by decide

theorem good_nonempty (l : List Finding) (h4 : allGoodSev l = true) (hne : l ≠ []) :
    hasSev l "CRITICAL" = true ∨ hasSev l "MANUAL_REVIEW" = true := by
  cases l with
  | nil => exact absurd rfl hne
  | cons g t =>
    simp only [allGoodSev, List.all_cons, Bool.and_eq_true] at h4
    rcases Bool.or_eq_true_iff.mp h4.1 with hc | hm
    · left; simp [hasSev, hc]
    · right; simp [hasSev, hm]

theorem inv_add_critical (st : VState) (f m : String) (h : Inv st) :
    Inv (add_critical_error st f m) := by
  obtain ⟨h1, h2, h3, h4⟩ := h
  refine ⟨?_, ?_, ?_, ?_⟩ <;>
    simp [add_critical_error, hasSev_append, allGoodSev_append, h4]

theorem inv_add_manual (st : VState) (f m : String) (h : Inv st) :
    Inv (add_manual_review_error st f m) := by
  obtain ⟨h1, h2, h3, h4⟩ := h
  by_cases hok : st.validation_status = "OK"
  · have he : st.validation_errors = [] := h3.mp hok
    refine ⟨?_, ?_, ?_, ?_⟩ <;>
      simp [add_manual_review_error, hok, hasSev_append, allGoodSev_append, he, hasSev, allGoodSev]
  · have hne : st.validation_errors ≠ [] := fun he => hok (h3.mpr he)
    rcases good_nonempty st.validation_errors h4 hne with hc | hm
    · -- a CRITICAL finding exists, so the status is ERROR and stays ERROR
      have herr : st.validation_status = "ERROR" := h1.mpr hc
      refine ⟨?_, ?_, ?_, ?_⟩ <;>
        simp [add_manual_review_error, hok, herr, hasSev_append, allGoodSev_append, h4, hc]
    · -- otherwise the status must already be PENDIENTE_MANUAL
      by_cases hcrit : hasSev st.validation_errors "CRITICAL" = true
      · have herr : st.validation_status = "ERROR" := h1.mpr hcrit
        refine ⟨?_, ?_, ?_, ?_⟩ <;>
          simp [add_manual_review_error, hok, herr, hasSev_append, allGoodSev_append, h4, hcrit]
      · have hpend : st.validation_status = "PENDIENTE_MANUAL" :=
          h2.mpr ⟨Bool.eq_false_iff.mpr hcrit ▸ rfl, hm⟩
        refine ⟨?_, ?_, ?_, ?_⟩ <;>
          simp [add_manual_review_error, hok, hpend, hasSev_append, allGoodSev_append, h4,
            Bool.eq_false_iff.mpr hcrit, hm]

theorem inv_critIf (c : Bool) (f m : String) (st : VState) (h : Inv st) :
    Inv (critIf c f m st) := by
  unfold critIf; split
  · exact inv_add_critical st f m h
  · exact h

theorem inv_manualIf (c : Bool) (f m : String) (st : VState) (h : Inv st) :
    Inv (manualIf c f m st) := by
  unfold manualIf; split
  · exact inv_add_manual st f m h
  · exact h

theorem inv_foldl {α : Type} (step : VState → α → VState)
    (hstep : ∀ st a, Inv st → Inv (step st a)) :
    ∀ (l : List α) (st : VState), Inv st → Inv (l.foldl step st) := by
  intro l
  induction l with
  | nil => intro st h; exact h
  | cons a t ih => intro st h; exact ih (step st a) (hstep st a h)

/-! ## The invariant holds after every validator step -/

theorem inv_curseErrorStep (cd : ClientData) (st : VState) (h : Inv st) :
    Inv (curseErrorStep cd st) := inv_critIf _ _ _ _ h

theorem inv_criticalFieldsStep (ed : List (String × Option String)) (fields : List String)
    (msgTail : String) (st : VState) (h : Inv st) :
    Inv (criticalFieldsStep ed fields msgTail st) := by
  unfold criticalFieldsStep
  exact inv_foldl _ (fun st a ha => inv_critIf _ _ _ _ ha) fields st h

theorem inv_cedulaMatchStep (ed : List (String × Option String)) (cd : ClientData)
    (st st2 : VState) (h : cedulaMatchStep ed cd st = some st2) (hi : Inv st) :
    Inv st2 := by
  unfold cedulaMatchStep at h
  repeat' split at h
  all_goals first
    | exact Option.noConfusion h
    | (obtain rfl := Option.some.inj h
       exact inv_critIf _ _ _ _ (inv_critIf _ _ _ _ (inv_critIf _ _ _ _
         (inv_critIf _ _ _ _ hi))))

theorem inv_cedulaRunFormatStep (ed : List (String × Option String)) (st : VState)
    (h : Inv st) : Inv (cedulaRunFormatStep ed st) := by
  unfold cedulaRunFormatStep
  split
  · exact inv_critIf _ _ _ _ h
  · exact h

theorem inv_cedulaVencStep (ed : List (String × Option String)) (curse : Option PyDate)
    (today : PyDate) (st : VState) (h : Inv st) :
    Inv (cedulaVencStep ed curse today st) := by
  unfold cedulaVencStep
  repeat' split
  all_goals first
    | exact inv_critIf _ _ _ _ h
    | exact inv_add_critical _ _ _ h
    | exact h

theorem inv_cedulaDatesStep (ed : List (String × Option String)) (st : VState)
    (h : Inv st) : Inv (cedulaDatesStep ed st) := by
  unfold cedulaDatesStep
  refine inv_foldl _ ?_ _ st h
  intro st a ha
  split
  · exact inv_critIf _ _ _ _ ha
  · exact ha

theorem inv_cedulaSexoStep (ed : List (String × Option String)) (st : VState)
    (h : Inv st) : Inv (cedulaSexoStep ed st) := inv_manualIf _ _ _ _ h

theorem inv_cedulaBranch (ed : List (String × Option String)) (cd : ClientData)
    (curse : Option PyDate) (today : PyDate) (st st2 : VState)
    (h : cedulaBranch ed cd curse today st = some st2) (hi : Inv st) : Inv st2 := by
  unfold cedulaBranch at h
  dsimp only at h
  split at h
  all_goals first
    | exact Option.noConfusion h
    | (rename_i stm heq
       obtain rfl := Option.some.inj h
       exact inv_cedulaSexoStep _ _ (inv_cedulaDatesStep _ _ (inv_cedulaVencStep _ _ _ _
         (inv_cedulaRunFormatStep _ _ (inv_cedulaMatchStep _ _ _ _ heq
           (inv_criticalFieldsStep _ _ _ _ hi))))))

theorem inv_domicilioEmisionStep (ed : List (String × Option String)) (curse : Option PyDate)
    (st : VState) (h : Inv st) : Inv (domicilioEmisionStep ed curse st) := by
  unfold domicilioEmisionStep
  dsimp only
  repeat' split
  all_goals first
    | exact inv_critIf _ _ _ _ h
    | exact inv_add_critical _ _ _ h
    | exact inv_add_manual _ _ _ h
    | exact h

theorem inv_domicilioVencStep (ed : List (String × Option String)) (curse : Option PyDate)
    (st : VState) (h : Inv st) : Inv (domicilioVencStep ed curse st) := by
  unfold domicilioVencStep
  repeat' split
  all_goals first
    | exact inv_critIf _ _ _ _ h
    | exact inv_add_critical _ _ _ h
    | exact inv_add_manual _ _ _ h
    | exact h

theorem inv_domicilioMatchStep (ed : List (String × Option String)) (cd : ClientData)
    (st st2 : VState) (h : domicilioMatchStep ed cd st = some st2) (hi : Inv st) :
    Inv st2 := by
  unfold domicilioMatchStep at h
  repeat' split at h
  all_goals first
    | exact Option.noConfusion h
    | (obtain rfl := Option.some.inj h
       exact inv_critIf _ _ _ _ (inv_critIf _ _ _ _ (inv_critIf _ _ _ _ hi)))

theorem inv_domicilioBranch (ed : List (String × Option String)) (cd : ClientData)
    (curse : Option PyDate) (st st2 : VState)
    (h : domicilioBranch ed cd curse st = some st2) (hi : Inv st) : Inv st2 := by
  unfold domicilioBranch at h
  dsimp only at h
  exact inv_domicilioMatchStep _ _ _ _ h (inv_domicilioVencStep _ _ _
    (inv_domicilioEmisionStep _ _ _ (inv_criticalFieldsStep _ _ _ _ hi)))

theorem inv_deudaRunStep (ed : List (String × Option String)) (cd : ClientData)
    (st st2 : VState) (h : deudaRunStep ed cd st = some st2) (hi : Inv st) :
    Inv st2 := by
  unfold deudaRunStep at h
  repeat' split at h
  all_goals first
    | exact Option.noConfusion h
    | (obtain rfl := Option.some.inj h
       first
         | exact inv_add_critical _ _ _ hi
         | exact hi)

theorem inv_deudaEmisionStep (ed : List (String × Option String)) (curse : Option PyDate)
    (st : VState) (h : Inv st) : Inv (deudaEmisionStep ed curse st) := by
  unfold deudaEmisionStep
  repeat' split
  all_goals first
    | exact inv_critIf _ _ _ _ h
    | exact inv_add_critical _ _ _ h
    | exact inv_add_manual _ _ _ h
    | exact h

theorem inv_deudaEstadoStep (ed : List (String × Option String)) (st : VState)
    (h : Inv st) : Inv (deudaEstadoStep ed st) := by
  unfold deudaEstadoStep
  dsimp only
  repeat' split
  all_goals first
    | exact inv_add_critical _ _ _ h
    | exact inv_add_manual _ _ _ h
    | exact h

theorem inv_deudaBranch (ed : List (String × Option String)) (cd : ClientData)
    (curse : Option PyDate) (st st2 : VState)
    (h : deudaBranch ed cd curse st = some st2) (hi : Inv st) : Inv st2 := by
  unfold deudaBranch at h
  dsimp only at h
  split at h
  all_goals first
    | exact Option.noConfusion h
    | (rename_i stm heq
       obtain rfl := Option.some.inj h
       exact inv_deudaEstadoStep _ _ (inv_deudaEmisionStep _ _ _
         (inv_deudaRunStep _ _ _ _ heq (inv_criticalFieldsStep _ _ _ _ hi))))

theorem inv_refEntryStep (st : VState) (p : Nat × RefEntry) (h : Inv st) :
    Inv (refEntryStep st p) := by
  unfold refEntryStep
  dsimp only
  repeat' split
  all_goals first
    | exact inv_add_critical _ _ _ (inv_critIf _ _ _ _ h)
    | exact inv_critIf _ _ _ _ (inv_critIf _ _ _ _ h)
    | exact inv_critIf _ _ _ _ h
    | exact h

theorem inv_referenciasBranch (refs : List RefEntry) (st : VState) (h : Inv st) :
    Inv (referenciasBranch refs st) := by
  unfold referenciasBranch
  exact inv_foldl _ (fun st a ha => inv_refEntryStep st a ha) _ _
    (inv_critIf _ _ _ _ h)

theorem inv_liquidacionRutStep (ed : List (String × Option String)) (st : VState)
    (h : Inv st) : Inv (liquidacionRutStep ed st) := by
  unfold liquidacionRutStep
  dsimp only
  repeat' split
  all_goals first
    | exact inv_critIf _ _ _ _ (inv_critIf _ _ _ _ h)
    | exact inv_critIf _ _ _ _ h
    | exact h

theorem inv_liquidacionEmisionStep (ed : List (String × Option String))
    (curse : Option PyDate) (today : PyDate) (st : VState) (h : Inv st) :
    Inv (liquidacionEmisionStep ed curse today st) := by
  unfold liquidacionEmisionStep
  dsimp only
  repeat' split
  all_goals first
    | exact inv_critIf _ _ _ _ h
    | exact inv_add_critical _ _ _ h
    | exact inv_manualIf _ _ _ _ h
    | exact h

theorem inv_liquidacionMontosStep (ed : List (String × Option String)) (st : VState)
    (h : Inv st) : Inv (liquidacionMontosStep ed st) := by
  unfold liquidacionMontosStep
  refine inv_foldl _ ?_ _ st h
  intro st a ha
  split
  · exact inv_manualIf _ _ _ _ ha
  · exact inv_add_critical _ _ _ ha

theorem inv_liquidacionBranch (ed : List (String × Option String)) (curse : Option PyDate)
    (today : PyDate) (st : VState) (h : Inv st) :
    Inv (liquidacionBranch ed curse today st) := by
  unfold liquidacionBranch
  exact inv_liquidacionMontosStep _ _ (inv_liquidacionEmisionStep _ _ _ _
    (inv_liquidacionRutStep _ _ (inv_criticalFieldsStep _ _ _ _ h)))

/-- Main invariant result: every state the validator can return satisfies
the status/severity coupling. -/
theorem validate_inv (doc_type : String) (extracted_data : ExtractedData)
    (cd : ClientData) (today : PyDate) (st : VState)
    (h : validate_document_data_chain doc_type extracted_data cd today = some st) :
    Inv st := by
  have h0 : Inv (curseErrorStep cd VState.init) := inv_curseErrorStep cd _ inv_init
  unfold validate_document_data_chain at h
  dsimp only at h
  repeat' split at h
  all_goals first
    | exact Option.noConfusion h
    | exact inv_cedulaBranch _ _ _ _ _ _ h h0
    | exact inv_domicilioBranch _ _ _ _ _ h h0
    | exact inv_deudaBranch _ _ _ _ _ h h0
    | (obtain rfl := Option.some.inj h
       first
         | exact inv_referenciasBranch _ _ h0
         | exact inv_add_critical _ _ _ h0
         | exact inv_liquidacionBranch _ _ _ _ h0
         | exact inv_add_manual _ _ _ h0)

/-- C2: for every document type, extracted field map and client record, a
result returned by the Validator has status ERROR whenever a CRITICAL
finding is present, status PENDIENTE_MANUAL whenever MANUAL_REVIEW findings
are present without any CRITICAL one, and otherwise an empty finding list
with status OK. -/
theorem c2_severity_status_invariant (doc_type : String)
    (extracted_data : ExtractedData) (client_data : ClientData) (today : PyDate)
    (st : VState)
    (h : validate_document_data_chain doc_type extracted_data client_data today = some st) :
    (hasSev st.validation_errors "CRITICAL" = true → st.validation_status = "ERROR") ∧
    (hasSev st.validation_errors "CRITICAL" = false →
      hasSev st.validation_errors "MANUAL_REVIEW" = true →
      st.validation_status = "PENDIENTE_MANUAL") ∧
    (hasSev st.validation_errors "CRITICAL" = false →
      hasSev st.validation_errors "MANUAL_REVIEW" = false →
      st.validation_errors = [] ∧ st.validation_status = "OK") := by
  obtain ⟨h1, h2, h3, h4⟩ := validate_inv _ _ _ _ _ h
  refine ⟨fun hc => h1.mpr hc, fun hc hm => h2.mpr ⟨hc, hm⟩, fun hc hm => ?_⟩
  have he : st.validation_errors = [] := by
    by_contra hne
    rcases good_nonempty _ h4 hne with h' | h'
    · exact absurd h' (by simp [hc])
    · exact absurd h' (by simp [hm])
  exact ⟨he, h3.mpr he⟩

/-- Witness for c2_severity_status_invariant: the OTRO branch on an empty
field map returns one MANUAL_REVIEW finding and status PENDIENTE_MANUAL. -/
theorem c2_severity_status_invariant_witness :
    (validate_document_data_chain "OTRO" (ExtractedData.dict [])
        ⟨none, none, none, none, none⟩ ⟨2025, 1, 1⟩ =
      some ⟨"PENDIENTE_MANUAL",
        [⟨"document_type",
          "Unknown or unclassified document type. Requires manual review.",
          some "MANUAL_REVIEW"⟩]⟩) ∧
    VState.validation_status
      ⟨"PENDIENTE_MANUAL",
        [⟨"document_type",
          "Unknown or unclassified document type. Requires manual review.",
          some "MANUAL_REVIEW"⟩]⟩ = "PENDIENTE_MANUAL" :=
  ⟨by decide,
    (c2_severity_status_invariant "OTRO" (ExtractedData.dict [])
        ⟨none, none, none, none, none⟩ ⟨2025, 1, 1⟩ _ (by decide)).2.1
      (by decide) (by decide)⟩

/-! ## The validator only appends findings -/

theorem pre_add_critical (st : VState) (f m : String) :
    st.validation_errors <+: (add_critical_error st f m).validation_errors :=
  ⟨[⟨f, m, some "CRITICAL"⟩], rfl⟩

theorem pre_add_manual (st : VState) (f m : String) :
    st.validation_errors <+: (add_manual_review_error st f m).validation_errors :=
  ⟨[⟨f, m, some "MANUAL_REVIEW"⟩], rfl⟩

theorem pre_critIf (c : Bool) (f m : String) (st : VState) :
    st.validation_errors <+: (critIf c f m st).validation_errors := by
  unfold critIf; split
  · exact pre_add_critical st f m
  · exact List.prefix_refl _

theorem pre_manualIf (c : Bool) (f m : String) (st : VState) :
    st.validation_errors <+: (manualIf c f m st).validation_errors := by
  unfold manualIf; split
  · exact pre_add_manual st f m
  · exact List.prefix_refl _

theorem pre_foldl {α : Type} (step : VState → α → VState)
    (hstep : ∀ st a, st.validation_errors <+: (step st a).validation_errors) :
    ∀ (l : List α) (st : VState),
      st.validation_errors <+: (l.foldl step st).validation_errors := by
  intro l
  induction l with
  | nil => intro st; exact List.prefix_refl _
  | cons a t ih => intro st; exact List.IsPrefix.trans (hstep st a) (ih (step st a))

theorem pre_criticalFieldsStep (ed : List (String × Option String)) (fields : List String)
    (msgTail : String) (st : VState) :
    st.validation_errors <+: (criticalFieldsStep ed fields msgTail st).validation_errors := by
  unfold criticalFieldsStep
  exact pre_foldl _ (fun st a => pre_critIf _ _ _ _) fields st

theorem pre_cedulaMatchStep (ed : List (String × Option String)) (cd : ClientData)
    (st st2 : VState) (h : cedulaMatchStep ed cd st = some st2) :
    st.validation_errors <+: st2.validation_errors := by
  unfold cedulaMatchStep at h
  repeat' split at h
  all_goals first
    | exact Option.noConfusion h
    | (obtain rfl := Option.some.inj h
       exact List.IsPrefix.trans (pre_critIf _ _ _ _)
         (List.IsPrefix.trans (pre_critIf _ _ _ _)
           (List.IsPrefix.trans (pre_critIf _ _ _ _) (pre_critIf _ _ _ _))))

theorem pre_cedulaRunFormatStep (ed : List (String × Option String)) (st : VState) :
    st.validation_errors <+: (cedulaRunFormatStep ed st).validation_errors := by
  unfold cedulaRunFormatStep
  split
  · exact pre_critIf _ _ _ _
  · exact List.prefix_refl _

theorem pre_cedulaVencStep (ed : List (String × Option String)) (curse : Option PyDate)
    (today : PyDate) (st : VState) :
    st.validation_errors <+: (cedulaVencStep ed curse today st).validation_errors := by
  unfold cedulaVencStep
  repeat' split
  all_goals first
    | exact pre_critIf _ _ _ _
    | exact pre_add_critical _ _ _
    | exact List.prefix_refl _

theorem pre_cedulaDatesStep (ed : List (String × Option String)) (st : VState) :
    st.validation_errors <+: (cedulaDatesStep ed st).validation_errors := by
  unfold cedulaDatesStep
  refine pre_foldl _ ?_ _ st
  intro st a
  split
  · exact pre_critIf _ _ _ _
  · exact List.prefix_refl _

theorem pre_cedulaBranch (ed : List (String × Option String)) (cd : ClientData)
    (curse : Option PyDate) (today : PyDate) (st st2 : VState)
    (h : cedulaBranch ed cd curse today st = some st2) :
    st.validation_errors <+: st2.validation_errors := by
  unfold cedulaBranch at h
  dsimp only at h
  split at h
  all_goals first
    | exact Option.noConfusion h
    | (rename_i stm heq
       obtain rfl := Option.some.inj h
       exact List.IsPrefix.trans (pre_criticalFieldsStep _ _ _ _)
         (List.IsPrefix.trans (pre_cedulaMatchStep _ _ _ _ heq)
           (List.IsPrefix.trans (pre_cedulaRunFormatStep _ _)
             (List.IsPrefix.trans (pre_cedulaVencStep _ _ _ _)
               (List.IsPrefix.trans (pre_cedulaDatesStep _ _) (pre_manualIf _ _ _ _))))))

theorem pre_domicilioEmisionStep (ed : List (String × Option String)) (curse : Option PyDate)
    (st : VState) :
    st.validation_errors <+: (domicilioEmisionStep ed curse st).validation_errors := by
  unfold domicilioEmisionStep
  dsimp only
  repeat' split
  all_goals first
    | exact pre_critIf _ _ _ _
    | exact pre_add_critical _ _ _
    | exact pre_add_manual _ _ _
    | exact List.prefix_refl _

theorem pre_domicilioVencStep (ed : List (String × Option String)) (curse : Option PyDate)
    (st : VState) :
    st.validation_errors <+: (domicilioVencStep ed curse st).validation_errors := by
  unfold domicilioVencStep
  repeat' split
  all_goals first
    | exact pre_critIf _ _ _ _
    | exact pre_add_critical _ _ _
    | exact pre_add_manual _ _ _
    | exact List.prefix_refl _

theorem pre_domicilioMatchStep (ed : List (String × Option String)) (cd : ClientData)
    (st st2 : VState) (h : domicilioMatchStep ed cd st = some st2) :
    st.validation_errors <+: st2.validation_errors := by
  unfold domicilioMatchStep at h
  repeat' split at h
  all_goals first
    | exact Option.noConfusion h
    | (obtain rfl := Option.some.inj h
       exact List.IsPrefix.trans (pre_critIf _ _ _ _)
         (List.IsPrefix.trans (pre_critIf _ _ _ _) (pre_critIf _ _ _ _)))

theorem pre_domicilioBranch (ed : List (String × Option String)) (cd : ClientData)
    (curse : Option PyDate) (st st2 : VState)
    (h : domicilioBranch ed cd curse st = some st2) :
    st.validation_errors <+: st2.validation_errors := by
  unfold domicilioBranch at h
  dsimp only at h
  exact List.IsPrefix.trans (pre_criticalFieldsStep _ _ _ _)
    (List.IsPrefix.trans (pre_domicilioEmisionStep _ _ _)
      (List.IsPrefix.trans (pre_domicilioVencStep _ _ _)
        (pre_domicilioMatchStep _ _ _ _ h)))

theorem pre_deudaRunStep (ed : List (String × Option String)) (cd : ClientData)
    (st st2 : VState) (h : deudaRunStep ed cd st = some st2) :
    st.validation_errors <+: st2.validation_errors := by
  unfold deudaRunStep at h
  repeat' split at h
  all_goals first
    | exact Option.noConfusion h
    | (obtain rfl := Option.some.inj h
       first
         | exact pre_add_critical _ _ _
         | exact List.prefix_refl _)

theorem pre_deudaEmisionStep (ed : List (String × Option String)) (curse : Option PyDate)
    (st : VState) :
    st.validation_errors <+: (deudaEmisionStep ed curse st).validation_errors := by
  unfold deudaEmisionStep
  repeat' split
  all_goals first
    | exact pre_critIf _ _ _ _
    | exact pre_add_critical _ _ _
    | exact pre_add_manual _ _ _
    | exact List.prefix_refl _

theorem pre_deudaEstadoStep (ed : List (String × Option String)) (st : VState) :
    st.validation_errors <+: (deudaEstadoStep ed st).validation_errors := by
  unfold deudaEstadoStep
  dsimp only
  repeat' split
  all_goals first
    | exact pre_add_critical _ _ _
    | exact pre_add_manual _ _ _
    | exact List.prefix_refl _

theorem pre_deudaBranch (ed : List (String × Option String)) (cd : ClientData)
    (curse : Option PyDate) (st st2 : VState)
    (h : deudaBranch ed cd curse st = some st2) :
    st.validation_errors <+: st2.validation_errors := by
  unfold deudaBranch at h
  dsimp only at h
  split at h
  all_goals first
    | exact Option.noConfusion h
    | (rename_i stm heq
       obtain rfl := Option.some.inj h
       exact List.IsPrefix.trans (pre_criticalFieldsStep _ _ _ _)
         (List.IsPrefix.trans (pre_deudaRunStep _ _ _ _ heq)
           (List.IsPrefix.trans (pre_deudaEmisionStep _ _ _) (pre_deudaEstadoStep _ _))))

theorem pre_refEntryStep (st : VState) (p : Nat × RefEntry) :
    st.validation_errors <+: (refEntryStep st p).validation_errors := by
  unfold refEntryStep
  dsimp only
  repeat' split
  all_goals first
    | exact List.IsPrefix.trans (pre_critIf _ _ _ _) (pre_add_critical _ _ _)
    | exact List.IsPrefix.trans (pre_critIf _ _ _ _) (pre_critIf _ _ _ _)
    | exact pre_critIf _ _ _ _
    | exact List.prefix_refl _

theorem pre_refFoldl (pairs : List (Nat × RefEntry)) (st : VState) :
    st.validation_errors <+: (pairs.foldl refEntryStep st).validation_errors :=
  pre_foldl _ (fun st a => pre_refEntryStep st a) pairs st

theorem pre_referenciasBranch (refs : List RefEntry) (st : VState) :
    st.validation_errors <+: (referenciasBranch refs st).validation_errors := by
  unfold referenciasBranch
  exact List.IsPrefix.trans (pre_critIf _ _ _ _) (pre_refFoldl _ _)

theorem pre_liquidacionRutStep (ed : List (String × Option String)) (st : VState) :
    st.validation_errors <+: (liquidacionRutStep ed st).validation_errors := by
  unfold liquidacionRutStep
  dsimp only
  repeat' split
  all_goals first
    | exact List.IsPrefix.trans (pre_critIf _ _ _ _) (pre_critIf _ _ _ _)
    | exact pre_critIf _ _ _ _
    | exact List.prefix_refl _

theorem pre_liquidacionEmisionStep (ed : List (String × Option String))
    (curse : Option PyDate) (today : PyDate) (st : VState) :
    st.validation_errors <+: (liquidacionEmisionStep ed curse today st).validation_errors := by
  unfold liquidacionEmisionStep
  dsimp only
  repeat' split
  all_goals first
    | exact pre_critIf _ _ _ _
    | exact pre_add_critical _ _ _
    | exact pre_manualIf _ _ _ _
    | exact List.prefix_refl _

theorem pre_liquidacionMontosStep (ed : List (String × Option String)) (st : VState) :
    st.validation_errors <+: (liquidacionMontosStep ed st).validation_errors := by
  unfold liquidacionMontosStep
  refine pre_foldl _ ?_ _ st
  intro st a
  split
  · exact pre_manualIf _ _ _ _
  · exact pre_add_critical _ _ _

theorem pre_liquidacionBranch (ed : List (String × Option String)) (curse : Option PyDate)
    (today : PyDate) (st : VState) :
    st.validation_errors <+: (liquidacionBranch ed curse today st).validation_errors := by
  unfold liquidacionBranch
  exact List.IsPrefix.trans (pre_criticalFieldsStep _ _ _ _)
    (List.IsPrefix.trans (pre_liquidacionRutStep _ _)
      (List.IsPrefix.trans (pre_liquidacionEmisionStep _ _ _ _)
        (pre_liquidacionMontosStep _ _)))

/-- Every state the validator returns extends the findings produced by the
curse-date preprocessing: nothing is ever removed. -/
theorem validate_errors_extend (doc_type : String) (extracted_data : ExtractedData)
    (cd : ClientData) (today : PyDate) (st : VState)
    (h : validate_document_data_chain doc_type extracted_data cd today = some st) :
    (curseErrorStep cd VState.init).validation_errors <+: st.validation_errors := by
  unfold validate_document_data_chain at h
  dsimp only at h
  repeat' split at h
  all_goals first
    | exact Option.noConfusion h
    | exact pre_cedulaBranch _ _ _ _ _ _ h
    | exact pre_domicilioBranch _ _ _ _ _ h
    | exact pre_deudaBranch _ _ _ _ _ h
    | (obtain rfl := Option.some.inj h
       first
         | exact pre_referenciasBranch _ _
         | exact pre_add_critical _ _ _
         | exact pre_liquidacionBranch _ _ _ _
         | exact pre_add_manual _ _ _)

/-! ## Branch-dispatch equations of the validator -/

theorem validate_cedula_eq (ed : List (String × Option String)) (cd : ClientData) (today : PyDate) :
    validate_document_data_chain "CEDULA_IDENTIDAD" (.dict ed) cd today =
      cedulaBranch ed cd (curse_date_of cd) today (curseErrorStep cd VState.init) := rfl

theorem validate_domicilio_eq (ed : List (String × Option String)) (cd : ClientData) (today : PyDate) :
    validate_document_data_chain "COMPROBANTE_DOMICILIO" (.dict ed) cd today =
      domicilioBranch ed cd (curse_date_of cd) (curseErrorStep cd VState.init) := rfl

theorem validate_deuda_eq (ed : List (String × Option String)) (cd : ClientData) (today : PyDate) :
    validate_document_data_chain "CERTIFICADO_DEUDA" (.dict ed) cd today =
      deudaBranch ed cd (curse_date_of cd) (curseErrorStep cd VState.init) := rfl

theorem validate_referencias_eq (refs : List RefEntry) (cd : ClientData) (today : PyDate) :
    validate_document_data_chain "REFERENCIAS_PERSONALES" (.list refs) cd today =
      some (referenciasBranch refs (curseErrorStep cd VState.init)) := rfl

theorem validate_liquidacion_eq (ed : List (String × Option String)) (cd : ClientData) (today : PyDate) :
    validate_document_data_chain "LIQUIDACION_SUELDO" (.dict ed) cd today =
      some (liquidacionBranch ed (curse_date_of cd) today (curseErrorStep cd VState.init)) := rfl

/-! ## C3: unparseable curse date -/

/-- C3 counterexample: with the unparseable curse date not-a-date, the
CEDULA_IDENTIDAD expiration rule falls back to the current date and still
produces a CRITICAL finding on fecha_vencimiento, so it is false that every
date-relative rule degrades to MANUAL_REVIEW or is skipped for such a
document. -/
theorem c3_unparseable_curse_counterexample :
    validate_document_data_chain "CEDULA_IDENTIDAD"
        (ExtractedData.dict [("nombre_completo", some "JUAN PEREZ SOTO"),
          ("run", some "12.345.678-5"), ("fecha_nacimiento", some "1990-01-01"),
          ("fecha_vencimiento", some "2000-01-01")])
        ⟨some "not-a-date", some "JUAN", some "PEREZ", some "SOTO", some "12.345.678-5"⟩
        ⟨2025, 10, 12⟩ =
      some ⟨"ERROR",
        [⟨"solicitud_fecha_curse",
          "Invalid format for credit curse date. Expected ISO 8601 (e.g., 2025-05-30T00:00:00.000Z) or YYYY-MM-DD.",
          some "CRITICAL"⟩,
         ⟨"fecha_vencimiento", "ID card is expired as of today.", some "CRITICAL"⟩]⟩ := by
  decide

/-- C3 (amended): a truthy unparseable solicitud_fecha_curse always yields a
CRITICAL finding on solicitud_fecha_curse; the curse-relative rules of
COMPROBANTE_DOMICILIO (emission and expiry) and CERTIFICADO_DEUDA (emission)
degrade to MANUAL_REVIEW findings; the CEDULA_IDENTIDAD expiration rule and
the LIQUIDACION_SUELDO freshness rule instead fall back to the current date
and may still produce CRITICAL findings. -/
theorem c3_unparseable_curse_degradation (cd : ClientData)
    (htruthy : truthyOpt cd.solicitud_fecha_curse = true)
    (hnone : curse_date_of cd = none) :
    (∀ (doc_type : String) (extracted : ExtractedData) (today : PyDate) (st : VState),
        validate_document_data_chain doc_type extracted cd today = some st →
        (⟨"solicitud_fecha_curse",
          "Invalid format for credit curse date. Expected ISO 8601 (e.g., 2025-05-30T00:00:00.000Z) or YYYY-MM-DD.",
          some "CRITICAL"⟩ : Finding) ∈ st.validation_errors) ∧
    (∀ (ed : List (String × Option String)) (today : PyDate) (st : VState) (em : PyDate),
        EDtruthy ed "fecha_emision" = true →
        strptime_Ymd (EDval ed "fecha_emision") = some em →
        validate_document_data_chain "COMPROBANTE_DOMICILIO" (.dict ed) cd today = some st →
        (⟨"fecha_emision",
          "Cannot validate emission date against curse date due to missing/invalid curse date.",
          some "MANUAL_REVIEW"⟩ : Finding) ∈ st.validation_errors) ∧
    (∀ (ed : List (String × Option String)) (today : PyDate) (st : VState) (venc : PyDate),
        EDtruthy ed "fecha_vencimiento" = true →
        strptime_Ymd (EDval ed "fecha_vencimiento") = some venc →
        validate_document_data_chain "COMPROBANTE_DOMICILIO" (.dict ed) cd today = some st →
        (⟨"fecha_vencimiento",
          "Cannot validate expiration date against curse date due to missing/invalid curse date.",
          some "MANUAL_REVIEW"⟩ : Finding) ∈ st.validation_errors) ∧
    (∀ (ed : List (String × Option String)) (today : PyDate) (st : VState) (em : PyDate),
        EDtruthy ed "fecha_emision" = true →
        strptime_Ymd (EDval ed "fecha_emision") = some em →
        validate_document_data_chain "CERTIFICADO_DEUDA" (.dict ed) cd today = some st →
        (⟨"fecha_emision",
          "Cannot validate emission date against curse date due to missing/invalid curse date.",
          some "MANUAL_REVIEW"⟩ : Finding) ∈ st.validation_errors) := by
  refine ⟨?_, ?_, ?_, ?_⟩
  · intro doc_type extracted today st hval
    refine ((validate_errors_extend _ _ _ _ _ hval).subset) ?_
    simp [curseErrorStep, critIf, htruthy, hnone, add_critical_error, VState.init]
  · intro ed today st em htr hem hval
    rw [validate_domicilio_eq] at hval
    unfold domicilioBranch at hval
    dsimp only at hval
    refine ((pre_domicilioMatchStep _ _ _ _ hval).subset)
      ((pre_domicilioVencStep _ _ _).subset ?_)
    unfold domicilioEmisionStep
    rw [hnone]
    simp [htr, hem, add_manual_review_error]
  · intro ed today st venc htr hvenc hval
    rw [validate_domicilio_eq] at hval
    unfold domicilioBranch at hval
    dsimp only at hval
    refine ((pre_domicilioMatchStep _ _ _ _ hval).subset) ?_
    unfold domicilioVencStep
    rw [hnone]
    simp [htr, hvenc, add_manual_review_error]
  · intro ed today st em htr hem hval
    rw [validate_deuda_eq] at hval
    unfold deudaBranch at hval
    dsimp only at hval
    split at hval
    · exact Option.noConfusion hval
    · rename_i stm heq
      obtain rfl := Option.some.inj hval
      refine (pre_deudaEstadoStep _ _).subset ?_
      unfold deudaEmisionStep
      rw [hnone]
      simp [htr, hem, add_manual_review_error]

/-- Witness for c3_unparseable_curse_degradation: the COMPROBANTE_DOMICILIO
emission rule degrades to a MANUAL_REVIEW finding on the not-a-date curse. -/
theorem c3_unparseable_curse_degradation_witness :
    truthyOpt (some "not-a-date") = true ∧
    curse_date_of ⟨some "not-a-date", some "JUAN", some "PEREZ", some "SOTO", some "12.345.678-5"⟩ = none ∧
    EDtruthy [("fecha_emision", some "2025-05-30")] "fecha_emision" = true ∧
    strptime_Ymd (EDval [("fecha_emision", some "2025-05-30")] "fecha_emision") =
      some ⟨2025, 5, 30⟩ ∧
    validate_document_data_chain "COMPROBANTE_DOMICILIO"
        (ExtractedData.dict [("fecha_emision", some "2025-05-30")])
        ⟨some "not-a-date", some "JUAN", some "PEREZ", some "SOTO", some "12.345.678-5"⟩ ⟨2025, 1, 1⟩ =
      some ⟨"ERROR",
        [⟨"solicitud_fecha_curse",
          "Invalid format for credit curse date. Expected ISO 8601 (e.g., 2025-05-30T00:00:00.000Z) or YYYY-MM-DD.",
          some "CRITICAL"⟩,
         ⟨"nombre_titular", "Critical field nombre_titular not found or empty.",
          some "CRITICAL"⟩,
         ⟨"direccion_completa", "Critical field direccion_completa not found or empty.",
          some "CRITICAL"⟩,
         ⟨"empresa_emisora", "Critical field empresa_emisora not found or empty.",
          some "CRITICAL"⟩,
         ⟨"fecha_emision",
          "Cannot validate emission date against curse date due to missing/invalid curse date.",
          some "MANUAL_REVIEW"⟩]⟩ ∧
    (⟨"fecha_emision",
      "Cannot validate emission date against curse date due to missing/invalid curse date.",
      some "MANUAL_REVIEW"⟩ : Finding) ∈
      [⟨"solicitud_fecha_curse",
        "Invalid format for credit curse date. Expected ISO 8601 (e.g., 2025-05-30T00:00:00.000Z) or YYYY-MM-DD.",
        some "CRITICAL"⟩,
       ⟨"nombre_titular", "Critical field nombre_titular not found or empty.",
        some "CRITICAL"⟩,
       ⟨"direccion_completa", "Critical field direccion_completa not found or empty.",
        some "CRITICAL"⟩,
       ⟨"empresa_emisora", "Critical field empresa_emisora not found or empty.",
        some "CRITICAL"⟩,
       (⟨"fecha_emision",
        "Cannot validate emission date against curse date due to missing/invalid curse date.",
        some "MANUAL_REVIEW"⟩ : Finding)] :=
  ⟨by decide, by decide, by decide, by decide, by decide,
    (c3_unparseable_curse_degradation ⟨some "not-a-date", some "JUAN", some "PEREZ", some "SOTO", some "12.345.678-5"⟩
        (by decide) (by decide)).2.1
      [("fecha_emision", some "2025-05-30")] ⟨2025, 1, 1⟩
      ⟨"ERROR",
        [⟨"solicitud_fecha_curse",
          "Invalid format for credit curse date. Expected ISO 8601 (e.g., 2025-05-30T00:00:00.000Z) or YYYY-MM-DD.",
          some "CRITICAL"⟩,
         ⟨"nombre_titular", "Critical field nombre_titular not found or empty.",
          some "CRITICAL"⟩,
         ⟨"direccion_completa", "Critical field direccion_completa not found or empty.",
          some "CRITICAL"⟩,
         ⟨"empresa_emisora", "Critical field empresa_emisora not found or empty.",
          some "CRITICAL"⟩,
         ⟨"fecha_emision",
          "Cannot validate emission date against curse date due to missing/invalid curse date.",
          some "MANUAL_REVIEW"⟩]⟩
      ⟨2025, 5, 30⟩ (by decide) (by decide) (by decide)⟩

/-! ## C10: clock independence -/

/-- With a resolved curse date, the CEDULA_IDENTIDAD branch never consults
the current date. -/
theorem cedulaBranch_today_const (ed : List (String × Option String)) (cd : ClientData)
    (c : PyDate) (t₁ t₂ : PyDate) (st : VState) :
    cedulaBranch ed cd (some c) t₁ st = cedulaBranch ed cd (some c) t₂ st := rfl

/-- With a resolved curse date, the LIQUIDACION_SUELDO branch never consults
the current date. -/
theorem liquidacionBranch_today_const (ed : List (String × Option String))
    (c : PyDate) (t₁ t₂ : PyDate) (st : VState) :
    liquidacionBranch ed (some c) t₁ st = liquidacionBranch ed (some c) t₂ st := rfl

/-- C10: whenever the client record carries a parseable curse date, the
Validator output is a function of its explicit inputs alone — two runs at
different current dates agree on every document type and field map; and when
the curse date is absent the current-date fallback can indeed change the
result, exhibited on a CEDULA_IDENTIDAD expiration check. -/
theorem c10_clock_independence :
    (∀ (doc_type : String) (extracted : ExtractedData) (cd : ClientData) (c : PyDate),
        curse_date_of cd = some c → ∀ t₁ t₂ : PyDate,
        validate_document_data_chain doc_type extracted cd t₁ =
          validate_document_data_chain doc_type extracted cd t₂) ∧
    validate_document_data_chain "CEDULA_IDENTIDAD"
        (ExtractedData.dict [("fecha_vencimiento", some "2000-01-01")])
        ⟨none, some "JUAN", some "PEREZ", some "SOTO", some "12.345.678-5"⟩ ⟨1999, 1, 1⟩ ≠
      validate_document_data_chain "CEDULA_IDENTIDAD"
        (ExtractedData.dict [("fecha_vencimiento", some "2000-01-01")])
        ⟨none, some "JUAN", some "PEREZ", some "SOTO", some "12.345.678-5"⟩ ⟨2025, 1, 1⟩ := by
  constructor
  · intro doc_type extracted cd c hc t₁ t₂
    unfold validate_document_data_chain
    dsimp only
    rw [hc]
    rfl
  · decide

/-- Witness for c10_clock_independence: a parseable curse date makes two
runs at distant current dates coincide. -/
theorem c10_clock_independence_witness :
    curse_date_of
        ⟨some "2025-05-30", some "JUAN", some "PEREZ", some "SOTO", some "12.345.678-5"⟩ =
      some ⟨2025, 5, 30⟩ ∧
    validate_document_data_chain "CEDULA_IDENTIDAD"
        (ExtractedData.dict [("fecha_vencimiento", some "2030-01-01")])
        ⟨some "2025-05-30", some "JUAN", some "PEREZ", some "SOTO", some "12.345.678-5"⟩
        ⟨2000, 1, 1⟩ =
      validate_document_data_chain "CEDULA_IDENTIDAD"
        (ExtractedData.dict [("fecha_vencimiento", some "2030-01-01")])
        ⟨some "2025-05-30", some "JUAN", some "PEREZ", some "SOTO", some "12.345.678-5"⟩
        ⟨2099, 12, 31⟩ :=
  ⟨by decide,
    c10_clock_independence.1 "CEDULA_IDENTIDAD"
      (ExtractedData.dict [("fecha_vencimiento", some "2030-01-01")])
      ⟨some "2025-05-30", some "JUAN", some "PEREZ", some "SOTO", some "12.345.678-5"⟩
      ⟨2025, 5, 30⟩ (by decide) ⟨2000, 1, 1⟩ ⟨2099, 12, 31⟩⟩

/-! ## C1: global-status aggregation -/

theorem isOk_cases (s : String) (h : isOkStatus s = true) :
    s = "OK" ∨ s = "APROBADO" := by
  unfold isOkStatus at h
  rcases Bool.or_eq_true_iff.mp h with h | h
  · exact Or.inl (eq_of_beq h)
  · exact Or.inr (eq_of_beq h)

theorem isErr_cases (s : String) (h : isErrorStatus s = true) :
    s = "ERROR" ∨ s = "FAILED_CRITICAL_ERROR" := by
  unfold isErrorStatus at h
  rcases Bool.or_eq_true_iff.mp h with h | h
  · exact Or.inl (eq_of_beq h)
  · exact Or.inr (eq_of_beq h)

theorem isOk_not_err (s : String) (h : isOkStatus s = true) :
    isErrorStatus s = false := by
  rcases isOk_cases s h with rfl | rfl <;> decide

theorem isOk_not_pend (s : String) (h : isOkStatus s = true) :
    isPendingStatus s = false := by
  rcases isOk_cases s h with rfl | rfl <;> decide

theorem isErr_not_pend (s : String) (h : isErrorStatus s = true) :
    isPendingStatus s = false := by
  rcases isErr_cases s h with rfl | rfl <;> decide

/-- The counting loop computes, in each counter, the number of entries of
the corresponding status class. -/
theorem countStatuses_foldl (l : List (Option String)) (c : StatusCounts) :
    l.foldl countStatuses c =
      ⟨c.ok_count + l.countP classOkOpt,
       c.error_count + l.countP classErrOpt,
       c.pending_manual_count + l.countP classPendOpt,
       c.other_count + l.countP classOtherOpt⟩ := by
  induction l generalizing c with
  | nil => simp
  | cons v t ih =>
    rw [List.foldl_cons, ih]
    by_cases hok : isOkStatus (statusOrDefault v) = true
    · have he := isOk_not_err _ hok
      have hp := isOk_not_pend _ hok
      simp [countStatuses, hok, he, hp, List.countP_cons, classOkOpt, classErrOpt,
        classPendOpt, classOtherOpt, recognizedStatus]
      omega
    · by_cases herr : isErrorStatus (statusOrDefault v) = true
      · have hp := isErr_not_pend _ herr
        simp [countStatuses, hok, herr, hp, List.countP_cons, classOkOpt, classErrOpt,
          classPendOpt, classOtherOpt, recognizedStatus]
        omega
      · by_cases hpend : isPendingStatus (statusOrDefault v) = true
        · simp [countStatuses, hok, herr, hpend, List.countP_cons, classOkOpt,
            classErrOpt, classPendOpt, classOtherOpt, recognizedStatus]
          omega
        · simp [countStatuses, hok, herr, hpend, List.countP_cons, classOkOpt,
            classErrOpt, classPendOpt, classOtherOpt, recognizedStatus]
          omega

/-- C1: the aggregation policy of determine_global_status, over the list of
per-document validation statuses (a missing status defaults to ERROR, and
the recognized set is the union of the three status classes the loop
counts).  Empty input is rejected automatically; a PENDIENTE_MANUAL or
unrecognized status forces manual review; unanimous OK cursates; unanimous
ERROR rejects; a mix of OK and ERROR without pending statuses goes to manual
review. -/
theorem c1_global_status_aggregation (rs : List (Option String)) :
    (rs = [] → determine_global_status rs = "RECHAZADA_REVISION_AUTOMATICA") ∧
    ((∃ v ∈ rs, statusOrDefault v = "PENDIENTE_MANUAL" ∨
        recognizedStatus (statusOrDefault v) = false) →
      determine_global_status rs = "PENDIENTE_REVISION_MANUAL") ∧
    (rs ≠ [] → (∀ v ∈ rs, statusOrDefault v = "OK") →
      determine_global_status rs = "CURSADO") ∧
    (rs ≠ [] → (∀ v ∈ rs, statusOrDefault v = "ERROR") →
      determine_global_status rs = "RECHAZADA_REVISION_AUTOMATICA") ∧
    ((∃ v ∈ rs, statusOrDefault v = "OK") → (∃ v ∈ rs, statusOrDefault v = "ERROR") →
      (∀ v ∈ rs, statusOrDefault v ≠ "PENDIENTE_MANUAL") →
      determine_global_status rs = "PENDIENTE_REVISION_MANUAL") := by
  refine ⟨?_, ?_, ?_, ?_, ?_⟩
  · rintro rfl
    rfl
  · rintro ⟨v, hv, hcase⟩
    have hne : rs ≠ [] := List.ne_nil_of_mem hv
    unfold determine_global_status
    rw [countStatuses_foldl]
    rw [if_neg (by simp [List.isEmpty_iff, hne])]
    have hpos : 0 < rs.countP classPendOpt ∨ 0 < rs.countP classOtherOpt := by
      rcases hcase with hpm | hur
      · left
        refine List.countP_pos.mpr ⟨v, hv, ?_⟩
        simp [classPendOpt, hpm, isPendingStatus]
      · right
        refine List.countP_pos.mpr ⟨v, hv, ?_⟩
        simp [classOtherOpt, hur]
    rw [if_pos (by
      simp only [Bool.or_eq_true, decide_eq_true_eq, Nat.zero_add]
      exact hpos)]
  · intro hne hall
    unfold determine_global_status
    rw [countStatuses_foldl]
    rw [if_neg (by simp [List.isEmpty_iff, hne])]
    have hok : rs.countP classOkOpt = rs.length :=
      List.countP_eq_length.mpr fun v hv => by
        simp [classOkOpt, hall v hv, isOkStatus]
    have hpend : rs.countP classPendOpt = 0 :=
      List.countP_eq_zero.mpr fun v hv => by
        simp [classPendOpt, hall v hv, isPendingStatus]
    have hother : rs.countP classOtherOpt = 0 :=
      List.countP_eq_zero.mpr fun v hv => by
        simp [classOtherOpt, hall v hv, recognizedStatus, isOkStatus]
    rw [if_neg (by simp [hpend, hother])]
    rw [if_pos (by simp [hok])]
  · intro hne hall
    unfold determine_global_status
    rw [countStatuses_foldl]
    rw [if_neg (by simp [List.isEmpty_iff, hne])]
    have herr : rs.countP classErrOpt = rs.length :=
      List.countP_eq_length.mpr fun v hv => by
        simp [classErrOpt, hall v hv, isErrorStatus]
    have hok : rs.countP classOkOpt = 0 :=
      List.countP_eq_zero.mpr fun v hv => by
        simp [classOkOpt, hall v hv, isOkStatus]
    have hpend : rs.countP classPendOpt = 0 :=
      List.countP_eq_zero.mpr fun v hv => by
        simp [classPendOpt, hall v hv, isPendingStatus]
    have hother : rs.countP classOtherOpt = 0 :=
      List.countP_eq_zero.mpr fun v hv => by
        simp [classOtherOpt, hall v hv, recognizedStatus, isErrorStatus]
    have hlen : rs.length ≠ 0 := by
      simpa [List.length_eq_zero] using hne
    rw [if_neg (by simp [hpend, hother])]
    rw [if_neg (by simp [hok]; omega)]
    rw [if_pos (by simp [herr])]
  · rintro ⟨vo, hvo, hok⟩ ⟨ve, hve, herrv⟩ hnopend
    have hne : rs ≠ [] := List.ne_nil_of_mem hvo
    unfold determine_global_status
    rw [countStatuses_foldl]
    rw [if_neg (by simp [List.isEmpty_iff, hne])]
    by_cases hcond : 0 < rs.countP classPendOpt ∨ 0 < rs.countP classOtherOpt
    · rw [if_pos (by
        simp only [Bool.or_eq_true, decide_eq_true_eq, Nat.zero_add]
        exact hcond)]
    · rw [if_neg (by
        simp only [Bool.or_eq_true, decide_eq_true_eq, Nat.zero_add]
        exact hcond)]
      have hoklt : rs.countP classOkOpt ≠ rs.length := by
        intro habs
        have := List.countP_eq_length.mp habs ve hve
        simp [classOkOpt, herrv, isOkStatus] at this
      have herrlt : rs.countP classErrOpt ≠ rs.length := by
        intro habs
        have := List.countP_eq_length.mp habs vo hvo
        simp [classErrOpt, hok, isErrorStatus] at this
      rw [if_neg (by simpa using hoklt)]
      rw [if_neg (by simpa using herrlt)]

/-- Witness for c1_global_status_aggregation: one OK and one ERROR document
force PENDIENTE_REVISION_MANUAL. -/
theorem c1_global_status_aggregation_witness :
    ((some "OK" : Option String) ∈ [some "OK", some "ERROR"]) ∧
    ((some "ERROR" : Option String) ∈ [some "OK", some "ERROR"]) ∧
    determine_global_status [some "OK", some "ERROR"] = "PENDIENTE_REVISION_MANUAL" :=
  ⟨by decide, by decide,
    (c1_global_status_aggregation [some "OK", some "ERROR"]).2.2.2.2
      ⟨some "OK", by decide, by decide⟩ ⟨some "ERROR", by decide, by decide⟩
      (by decide)⟩

/-! ## C5: CERTIFICADO_DEUDA rules -/

/-- A truthy extracted key is present and bound to its non-None value, so
the defaulted lookup returns exactly the undefaulted one. -/
theorem EDgetD_of_truthy (ed : List (String × Option String)) (k : String)
    (h : EDtruthy ed k = true) : EDgetD ed k = some (EDval ed k) := by
  unfold EDtruthy EDget at h
  unfold EDgetD EDval EDget
  split at h
  · exact absurd h (by decide)
  · rename_i p hf
    cases hp : p.2 with
    | none => rw [hp] at h; exact absurd h (by decide)
    | some s => rfl

/-- C5 counterexample: all conditions of the claimed happy path hold
(estado_deuda is SIN ANOTACIONES, fecha_emision equals the curse date, every
required field is present), yet the result is not finding-free: the holder
RUT differs from the client RUT, which the claim omitted. -/
theorem c5_certificado_deuda_counterexample :
    validate_document_data_chain "CERTIFICADO_DEUDA"
        (ExtractedData.dict [("nombre_titular", some "JUAN PEREZ"), ("run_titular", some "12.345.678-5"),
          ("estado_deuda", some "SIN ANOTACIONES"), ("fecha_emision", some "2025-05-30")])
        ⟨some "2025-05-30", none, none, none, some "11.111.111-1"⟩ ⟨2025, 6, 1⟩ =
      some ⟨"ERROR",
        [⟨"run_titular", "Certificate holder RUT does not match client RUT.",
          some "CRITICAL"⟩]⟩ := by decide

/-- C5 (amended): for CERTIFICADO_DEUDA with a parseable curse date: an
estado_deuda containing con anotaciones and not containing sin anotaciones
(case-insensitively) yields a CRITICAL finding; a non-empty estado_deuda
containing neither phrase yields a MANUAL_REVIEW finding; a parseable
fecha_emision differing from the curse date yields a CRITICAL finding; and
when estado_deuda is SIN ANOTACIONES, fecha_emision parses to exactly the
curse date, all required fields are present, and the cleaned holder RUT is
non-empty and matches the client RUT (or the client RUT is empty), the
result has no findings and status OK. -/
theorem c5_certificado_deuda_rules (ed : List (String × Option String)) (cd : ClientData)
    (today : PyDate) (c : PyDate) (hc : curse_date_of cd = some c) :
    (∀ st : VState, EDtruthy ed "estado_deuda" = true →
      containsSub (charLower (EDval ed "estado_deuda").toList) "sin anotaciones".toList = false →
      containsSub (charLower (EDval ed "estado_deuda").toList) "con anotaciones".toList = true →
      validate_document_data_chain "CERTIFICADO_DEUDA" (.dict ed) cd today = some st →
      (⟨"estado_deuda",
        "The debt certificate indicates CON ANOTACIONES, which is a critical error.",
        some "CRITICAL"⟩ : Finding) ∈ st.validation_errors) ∧
    (∀ st : VState, EDtruthy ed "estado_deuda" = true →
      containsSub (charLower (EDval ed "estado_deuda").toList) "sin anotaciones".toList = false →
      containsSub (charLower (EDval ed "estado_deuda").toList) "con anotaciones".toList = false →
      validate_document_data_chain "CERTIFICADO_DEUDA" (.dict ed) cd today = some st →
      (⟨"estado_deuda",
        "Debt status is ambiguous. Manual review needed (expected SIN ANOTACIONES or CON ANOTACIONES).",
        some "MANUAL_REVIEW"⟩ : Finding) ∈ st.validation_errors) ∧
    (∀ (st : VState) (em : PyDate), EDtruthy ed "fecha_emision" = true →
      strptime_Ymd (EDval ed "fecha_emision") = some em → em ≠ c →
      validate_document_data_chain "CERTIFICADO_DEUDA" (.dict ed) cd today = some st →
      (⟨"fecha_emision",
        "Debt certificate emission date must be exactly the credit curse date.",
        some "CRITICAL"⟩ : Finding) ∈ st.validation_errors) ∧
    (∀ rutStr : String, EDtruthy ed "nombre_titular" = true →
      EDtruthy ed "run_titular" = true →
      EDget ed "estado_deuda" = some "SIN ANOTACIONES" →
      EDtruthy ed "fecha_emision" = true →
      strptime_Ymd (EDval ed "fecha_emision") = some c →
      cd.cliente_rut = some rutStr →
      (cleanRut (EDval ed "run_titular")).isEmpty = false →
      ((cleanRut rutStr).isEmpty = true ∨
        cleanRut (EDval ed "run_titular") = cleanRut rutStr) →
      validate_document_data_chain "CERTIFICADO_DEUDA" (.dict ed) cd today =
        some ⟨"OK", []⟩) := by
  have e0 : curseErrorStep cd VState.init = VState.init := by
    simp [curseErrorStep, critIf, hc]
  refine ⟨?_, ?_, ?_, ?_⟩
  · intro st ht hsin hcon hval
    rw [validate_deuda_eq] at hval
    unfold deudaBranch at hval
    dsimp only at hval
    split at hval
    · exact Option.noConfusion hval
    · rename_i stm heq
      obtain rfl := Option.some.inj hval
      unfold deudaEstadoStep
      dsimp only
      simp at hsin hcon
      simp [ht, hsin, hcon, add_critical_error]
  · intro st ht hsin hcon hval
    rw [validate_deuda_eq] at hval
    unfold deudaBranch at hval
    dsimp only at hval
    split at hval
    · exact Option.noConfusion hval
    · rename_i stm heq
      obtain rfl := Option.some.inj hval
      unfold deudaEstadoStep
      dsimp only
      simp at hsin hcon
      simp [ht, hsin, hcon, add_manual_review_error]
  · intro st em ht hem hne hval
    rw [validate_deuda_eq] at hval
    unfold deudaBranch at hval
    dsimp only at hval
    split at hval
    · exact Option.noConfusion hval
    · rename_i stm heq
      obtain rfl := Option.some.inj hval
      refine (pre_deudaEstadoStep _ _).subset ?_
      unfold deudaEmisionStep
      rw [hc]
      simp [ht, hem, critIf, hne, add_critical_error]
  · intro rutStr h1 h2 h3 h4 h5 hcr h6 h7
    rw [validate_deuda_eq, e0]
    have h3t : EDtruthy ed "estado_deuda" = true := by
      simp [EDtruthy, h3, truthyOpt]
    have h3v : EDval ed "estado_deuda" = "SIN ANOTACIONES" := by
      simp [EDval, h3]
    have e1 : criticalFieldsStep ed
        ["nombre_titular", "run_titular", "estado_deuda", "fecha_emision"] "."
        VState.init = VState.init := by
      simp [criticalFieldsStep, critIf, h1, h2, h3t, h4]
    have h6p : cleanRut (EDval ed "run_titular") ≠ [] := by simpa using h6
    have e2 : deudaRunStep ed cd VState.init = some VState.init := by
      unfold deudaRunStep
      rw [EDgetD_of_truthy ed "run_titular" h2, hcr]
      dsimp only [cleanRutOpt]
      rcases h7 with h7 | h7
      · have h7p : cleanRut rutStr = [] := by simpa using h7
        simp [h7p, h6p]
      · rw [h7] at h6p
        simp [h7, h6p]
    have e3 : deudaEmisionStep ed (curse_date_of cd) VState.init = VState.init := by
      unfold deudaEmisionStep
      rw [hc]
      simp [h4, h5, critIf]
    have e4 : deudaEstadoStep ed VState.init = VState.init := by
      unfold deudaEstadoStep
      rw [h3t, h3v]
      decide
    unfold deudaBranch
    dsimp only
    rw [e1, e2]
    dsimp only
    rw [e3, e4]
    rfl

/-- Witness for c5_certificado_deuda_rules: the amended happy path — matching
holder RUT included — really ends with no findings and status OK. -/
theorem c5_certificado_deuda_rules_witness :
    curse_date_of ⟨some "2025-05-30", none, none, none, some "12.345.678-5"⟩ =
      some ⟨2025, 5, 30⟩ ∧
    validate_document_data_chain "CERTIFICADO_DEUDA"
        (ExtractedData.dict [("nombre_titular", some "JUAN PEREZ"), ("run_titular", some "12.345.678-5"),
          ("estado_deuda", some "SIN ANOTACIONES"), ("fecha_emision", some "2025-05-30")])
        ⟨some "2025-05-30", none, none, none, some "12.345.678-5"⟩ ⟨2025, 6, 1⟩ =
      some ⟨"OK", []⟩ :=
  ⟨by decide,
    (c5_certificado_deuda_rules
        [("nombre_titular", some "JUAN PEREZ"), ("run_titular", some "12.345.678-5"),
         ("estado_deuda", some "SIN ANOTACIONES"), ("fecha_emision", some "2025-05-30")]
        ⟨some "2025-05-30", none, none, none, some "12.345.678-5"⟩ ⟨2025, 6, 1⟩
        ⟨2025, 5, 30⟩ (by decide)).2.2.2 "12.345.678-5"
      (by decide) (by decide) (by decide) (by decide) (by decide) (by decide) (by decide)
      (Or.inr (by decide))⟩

/-! ## C6: LIQUIDACION_SUELDO freshness -/

/-- C6 counterexample: an emission date later than the curse date but inside
the same calendar month (curse 2025-05-01, emission 2025-05-30) is in the
future, yet the code's month-difference test sees 0 months and emits no
finding at all — the claimed CRITICAL finding for future issue dates does
not appear; the same run also shows a 2-months-old date would trigger
nothing, since the review window is month difference exactly 3. -/
theorem c6_liquidacion_freshness_counterexample :
    PyDate.lt ⟨2025, 5, 1⟩ ⟨2025, 5, 30⟩ = true ∧
    curse_date_of ⟨some "2025-05-01", none, none, none, none⟩ = some ⟨2025, 5, 1⟩ ∧
    validate_document_data_chain "LIQUIDACION_SUELDO"
        (ExtractedData.dict [("nombre_empleado", some "ANA SOTO"), ("run_empleado", some "12.345.678-5"),
          ("rut_empresa", some "76.543.210-K"), ("nombre_empresa", some "ACME"), ("cargo", some "ANALISTA"),
          ("periodo", some "MAYO 2025"), ("fecha_emision", some "2025-05-30"),
          ("sueldo_bruto", some "1.000.000"), ("sueldo_liquido", some "800.000"),
          ("total_descuentos", some "100.000"), ("total_imposiciones", some "100.000")])
        ⟨some "2025-05-01", none, none, none, none⟩ ⟨2025, 6, 1⟩ =
      some ⟨"OK", []⟩ := by decide

/-- C6 (amended): for LIQUIDACION_SUELDO with parseable curse date and
emission date, the rule works on the calendar-month difference
(years times 12 plus months, days ignored): a difference above 3 yields a
CRITICAL finding, a negative difference (emission in a later month than the
curse) yields a CRITICAL finding, and a difference of exactly 3 yields a
MANUAL_REVIEW finding on fecha_emision. -/
theorem c6_liquidacion_freshness (ed : List (String × Option String)) (cd : ClientData)
    (today : PyDate) (c em : PyDate) (hc : curse_date_of cd = some c)
    (ht : EDtruthy ed "fecha_emision" = true)
    (hem : strptime_Ymd (EDval ed "fecha_emision") = some em) :
    (∀ st : VState, monthsDiff c em > 3 →
      validate_document_data_chain "LIQUIDACION_SUELDO" (.dict ed) cd today = some st →
      (⟨"fecha_emision",
        "Payroll slip is too old regarding curse date. Maximum allowed: 3 months.",
        some "CRITICAL"⟩ : Finding) ∈ st.validation_errors) ∧
    (∀ st : VState, monthsDiff c em < 0 →
      validate_document_data_chain "LIQUIDACION_SUELDO" (.dict ed) cd today = some st →
      (⟨"fecha_emision",
        "Payroll slip emission date is in the future relative to curse date.",
        some "CRITICAL"⟩ : Finding) ∈ st.validation_errors) ∧
    (∀ st : VState, monthsDiff c em = 3 →
      validate_document_data_chain "LIQUIDACION_SUELDO" (.dict ed) cd today = some st →
      (⟨"fecha_emision",
        "Payroll slip is 3 months old regarding curse date. Review recommended.",
        some "MANUAL_REVIEW"⟩ : Finding) ∈ st.validation_errors) := by
  refine ⟨?_, ?_, ?_⟩
  · intro st hgt hval
    rw [validate_liquidacion_eq] at hval
    obtain rfl := Option.some.inj hval
    unfold liquidacionBranch
    dsimp only
    refine (pre_liquidacionMontosStep _ _).subset ?_
    unfold liquidacionEmisionStep
    rw [hc]
    dsimp only
    simp [ht, hem, hgt, add_critical_error]
  · intro st hlt hval
    rw [validate_liquidacion_eq] at hval
    obtain rfl := Option.some.inj hval
    unfold liquidacionBranch
    dsimp only
    refine (pre_liquidacionMontosStep _ _).subset ?_
    unfold liquidacionEmisionStep
    rw [hc]
    dsimp only
    have hng : ¬(monthsDiff c em > 3) := by omega
    simp [ht, hem, hng, hlt, add_critical_error]
  · intro st hmd hval
    rw [validate_liquidacion_eq] at hval
    obtain rfl := Option.some.inj hval
    unfold liquidacionBranch
    dsimp only
    refine (pre_liquidacionMontosStep _ _).subset ?_
    unfold liquidacionEmisionStep
    rw [hc]
    dsimp only
    have hng : ¬(monthsDiff c em > 3) := by omega
    have hnl : ¬(monthsDiff c em < 0) := by omega
    have hg2 : monthsDiff c em > 2 := by omega
    simp [ht, hem, hng, hnl, hg2, manualIf, add_manual_review_error]

/-- Witness for c6_liquidacion_freshness: a slip issued 2025-02-15 against a
curse date of 2025-05-01 has month difference exactly 3 and draws the
MANUAL_REVIEW finding. -/
theorem c6_liquidacion_freshness_witness :
    curse_date_of ⟨some "2025-05-01", none, none, none, none⟩ = some ⟨2025, 5, 1⟩ ∧
    EDtruthy [("nombre_empleado", some "ANA SOTO"), ("run_empleado", some "12.345.678-5"),
        ("rut_empresa", some "76.543.210-K"), ("nombre_empresa", some "ACME"), ("cargo", some "ANALISTA"),
        ("periodo", some "FEB 2025"), ("fecha_emision", some "2025-02-15"),
        ("sueldo_bruto", some "1.000.000"), ("sueldo_liquido", some "800.000"),
        ("total_descuentos", some "100.000"), ("total_imposiciones", some "100.000")]
      "fecha_emision" = true ∧
    monthsDiff ⟨2025, 5, 1⟩ ⟨2025, 2, 15⟩ = 3 ∧
    (⟨"fecha_emision",
      "Payroll slip is 3 months old regarding curse date. Review recommended.",
      some "MANUAL_REVIEW"⟩ : Finding) ∈
      (VState.mk "PENDIENTE_MANUAL"
        [⟨"fecha_emision",
          "Payroll slip is 3 months old regarding curse date. Review recommended.",
          some "MANUAL_REVIEW"⟩]).validation_errors :=
  ⟨by decide, by decide, by decide,
    (c6_liquidacion_freshness
        [("nombre_empleado", some "ANA SOTO"), ("run_empleado", some "12.345.678-5"),
         ("rut_empresa", some "76.543.210-K"), ("nombre_empresa", some "ACME"), ("cargo", some "ANALISTA"),
         ("periodo", some "FEB 2025"), ("fecha_emision", some "2025-02-15"),
         ("sueldo_bruto", some "1.000.000"), ("sueldo_liquido", some "800.000"),
         ("total_descuentos", some "100.000"), ("total_imposiciones", some "100.000")]
        ⟨some "2025-05-01", none, none, none, none⟩ ⟨2025, 6, 1⟩
        ⟨2025, 5, 1⟩ ⟨2025, 2, 15⟩ (by decide) (by decide) (by decide)).2.2
      (VState.mk "PENDIENTE_MANUAL"
        [⟨"fecha_emision",
          "Payroll slip is 3 months old regarding curse date. Review recommended.",
          some "MANUAL_REVIEW"⟩])
      (by decide) (by decide)⟩

/-! ## C7: REFERENCIAS_PERSONALES rules -/

theorem refEntryStep_name_mem (st : VState) (i : Nat) (r : RefEntry)
    (h : truthyOpt r.nombre_referencia = false) :
    (⟨s!"reference_{i + 1}.nombre_referencia", "Mandatory reference name not found.",
      some "CRITICAL"⟩ : Finding) ∈ (refEntryStep st (i, r)).validation_errors := by
  have hname : (⟨s!"reference_{i + 1}.nombre_referencia",
      "Mandatory reference name not found.", some "CRITICAL"⟩ : Finding) ∈
      (critIf (!truthyOpt r.nombre_referencia) (s!"reference_{i + 1}.nombre_referencia")
        "Mandatory reference name not found." st).validation_errors := by
    simp [critIf, h, add_critical_error]
  unfold refEntryStep
  dsimp only
  split
  · exact (pre_add_critical _ _ _).subset hname
  · exact (pre_critIf _ _ _ _).subset hname

theorem refEntryStep_phone_missing_mem (st : VState) (i : Nat) (r : RefEntry)
    (h : (r.numero_telefono.getD "").toList.isEmpty = true) :
    (⟨s!"reference_{i + 1}.numero_telefono", "Mandatory phone number not found.",
      some "CRITICAL"⟩ : Finding) ∈ (refEntryStep st (i, r)).validation_errors := by
  unfold refEntryStep
  dsimp only
  rw [if_pos h]
  simp [add_critical_error]

theorem refEntryStep_phone_bad_mem (st : VState) (i : Nat) (r : RefEntry)
    (h1 : (r.numero_telefono.getD "").toList.isEmpty = false)
    (h2 : phoneFormatOk (cleanPhone (r.numero_telefono.getD "")) = false) :
    (⟨s!"reference_{i + 1}.numero_telefono", "Invalid Chilean phone format.",
      some "CRITICAL"⟩ : Finding) ∈ (refEntryStep st (i, r)).validation_errors := by
  unfold refEntryStep
  dsimp only
  rw [if_neg (by simpa using h1)]
  simp [critIf, h2, add_critical_error]

/-- A finding that a given entry's step always appends survives to the end
of the per-reference loop. -/
theorem mem_refFoldl_of_step (pairs : List (Nat × RefEntry)) (p : Nat × RefEntry)
    (hp : p ∈ pairs) (fnd : Finding)
    (hstep : ∀ st : VState, fnd ∈ (refEntryStep st p).validation_errors) :
    ∀ st : VState, fnd ∈ (pairs.foldl refEntryStep st).validation_errors := by
  induction pairs with
  | nil => cases hp
  | cons q rest ih =>
    intro st
    rcases List.mem_cons.mp hp with rfl | hmem
    · exact (pre_refFoldl rest _).subset (hstep st)
    · exact ih hmem _

/-- C7: REFERENCIAS_PERSONALES — the extracted result must be a list
(a field map draws a CRITICAL finding), a list with fewer than 2 entries
draws a CRITICAL finding on count, an entry without a name or with a
missing or non-matching phone number draws a CRITICAL finding on the
corresponding indexed field, and a one-entry list draws the count finding
with overall status ERROR. -/
theorem c7_referencias_personales_rules (cd : ClientData) (today : PyDate) :
    (∀ (ed : List (String × Option String)) (st : VState),
      validate_document_data_chain "REFERENCIAS_PERSONALES" (.dict ed) cd today = some st →
      (⟨"extracted_data", "References were not extracted as a list.",
        some "CRITICAL"⟩ : Finding) ∈ st.validation_errors) ∧
    (∀ (refs : List RefEntry) (st : VState),
      validate_document_data_chain "REFERENCIAS_PERSONALES" (.list refs) cd today = some st →
      refs.length < 2 →
      (⟨"count", "At least 2 references are required, but fewer were found.",
        some "CRITICAL"⟩ : Finding) ∈ st.validation_errors) ∧
    (∀ (refs : List RefEntry) (st : VState) (i : Nat) (r : RefEntry),
      validate_document_data_chain "REFERENCIAS_PERSONALES" (.list refs) cd today = some st →
      (i, r) ∈ refs.enum → truthyOpt r.nombre_referencia = false →
      (⟨s!"reference_{i + 1}.nombre_referencia", "Mandatory reference name not found.",
        some "CRITICAL"⟩ : Finding) ∈ st.validation_errors) ∧
    (∀ (refs : List RefEntry) (st : VState) (i : Nat) (r : RefEntry),
      validate_document_data_chain "REFERENCIAS_PERSONALES" (.list refs) cd today = some st →
      (i, r) ∈ refs.enum → (r.numero_telefono.getD "").toList.isEmpty = true →
      (⟨s!"reference_{i + 1}.numero_telefono", "Mandatory phone number not found.",
        some "CRITICAL"⟩ : Finding) ∈ st.validation_errors) ∧
    (∀ (refs : List RefEntry) (st : VState) (i : Nat) (r : RefEntry),
      validate_document_data_chain "REFERENCIAS_PERSONALES" (.list refs) cd today = some st →
      (i, r) ∈ refs.enum → (r.numero_telefono.getD "").toList.isEmpty = false →
      phoneFormatOk (cleanPhone (r.numero_telefono.getD "")) = false →
      (⟨s!"reference_{i + 1}.numero_telefono", "Invalid Chilean phone format.",
        some "CRITICAL"⟩ : Finding) ∈ st.validation_errors) ∧
    (∀ (refs : List RefEntry) (st : VState),
      validate_document_data_chain "REFERENCIAS_PERSONALES" (.list refs) cd today = some st →
      refs.length = 1 →
      (⟨"count", "At least 2 references are required, but fewer were found.",
        some "CRITICAL"⟩ : Finding) ∈ st.validation_errors ∧
      st.validation_status = "ERROR") := by
  have hcount : ∀ (refs : List RefEntry) (st : VState),
      validate_document_data_chain "REFERENCIAS_PERSONALES" (.list refs) cd today = some st →
      refs.length < 2 →
      (⟨"count", "At least 2 references are required, but fewer were found.",
        some "CRITICAL"⟩ : Finding) ∈ st.validation_errors := by
    intro refs st hval hlen
    rw [validate_referencias_eq] at hval
    obtain rfl := Option.some.inj hval
    unfold referenciasBranch
    dsimp only
    refine (pre_refFoldl _ _).subset ?_
    simp [critIf, hlen, add_critical_error]
  refine ⟨?_, hcount, ?_, ?_, ?_, ?_⟩
  · intro ed st hval
    have : validate_document_data_chain "REFERENCIAS_PERSONALES" (.dict ed) cd today =
        some (add_critical_error (curseErrorStep cd VState.init) "extracted_data"
          "References were not extracted as a list.") := rfl
    rw [this] at hval
    obtain rfl := Option.some.inj hval
    simp [add_critical_error]
  · intro refs st i r hval hmem hname
    rw [validate_referencias_eq] at hval
    obtain rfl := Option.some.inj hval
    unfold referenciasBranch
    dsimp only
    exact mem_refFoldl_of_step refs.enum (i, r) hmem _
      (fun st => refEntryStep_name_mem st i r hname) _
  · intro refs st i r hval hmem hphone
    rw [validate_referencias_eq] at hval
    obtain rfl := Option.some.inj hval
    unfold referenciasBranch
    dsimp only
    exact mem_refFoldl_of_step refs.enum (i, r) hmem _
      (fun st => refEntryStep_phone_missing_mem st i r hphone) _
  · intro refs st i r hval hmem h1 h2
    rw [validate_referencias_eq] at hval
    obtain rfl := Option.some.inj hval
    unfold referenciasBranch
    dsimp only
    exact mem_refFoldl_of_step refs.enum (i, r) hmem _
      (fun st => refEntryStep_phone_bad_mem st i r h1 h2) _
  · intro refs st hval hlen
    have hmem := hcount refs st hval (by omega)
    refine ⟨hmem, ?_⟩
    obtain ⟨h1, _, _, _⟩ := validate_inv _ _ _ _ _ hval
    refine h1.mpr ?_
    unfold hasSev
    rw [List.any_eq_true]
    exact ⟨_, hmem, by decide⟩

/-- Witness for c7_referencias_personales_rules: a single reference with an
invalid phone yields the count CRITICAL finding and status ERROR. -/
theorem c7_referencias_personales_rules_witness :
    validate_document_data_chain "REFERENCIAS_PERSONALES"
        (ExtractedData.list [⟨some "PEDRO GOMEZ", some "12345"⟩])
        ⟨none, none, none, none, none⟩ ⟨2025, 1, 1⟩ =
      some ⟨"ERROR",
        [⟨"count", "At least 2 references are required, but fewer were found.",
          some "CRITICAL"⟩,
         ⟨"reference_1.numero_telefono", "Invalid Chilean phone format.",
          some "CRITICAL"⟩]⟩ ∧
    ((⟨"count", "At least 2 references are required, but fewer were found.",
        some "CRITICAL"⟩ : Finding) ∈
      (VState.mk "ERROR"
        [⟨"count", "At least 2 references are required, but fewer were found.",
          some "CRITICAL"⟩,
         ⟨"reference_1.numero_telefono", "Invalid Chilean phone format.",
          some "CRITICAL"⟩]).validation_errors ∧
      (VState.mk "ERROR"
        [⟨"count", "At least 2 references are required, but fewer were found.",
          some "CRITICAL"⟩,
         ⟨"reference_1.numero_telefono", "Invalid Chilean phone format.",
          some "CRITICAL"⟩]).validation_status = "ERROR") :=
  ⟨by decide,
    (c7_referencias_personales_rules ⟨none, none, none, none, none⟩ ⟨2025, 1, 1⟩).2.2.2.2.2
      [⟨some "PEDRO GOMEZ", some "12345"⟩]
      (VState.mk "ERROR"
        [⟨"count", "At least 2 references are required, but fewer were found.",
          some "CRITICAL"⟩,
         ⟨"reference_1.numero_telefono", "Invalid Chilean phone format.",
          some "CRITICAL"⟩])
      (by decide) (by decide)⟩

/-! ## C4: failure isolation in the orchestrator -/

/-- C4: the spec claims a failure confined to one document never aborts its
siblings, every other document still receiving its own outcome in
document_results.  In the code every request with at least one document
aborts before any document is processed: the pydantic payload objects reach
the path-based preprocessing chain, os.path.basename raises TypeError on the
first of them, and the orchestrator answers FAILED_CRITICAL_ERROR with an
empty document_results — so a failure involving one document costs every
sibling its outcome.  The second conjunct evaluates a concrete two-document
request: neither document appears in the result. -/
theorem c4_failure_isolation_code_bug :
    (∀ docs : List DocumentBase64, docs ≠ [] →
      main_validation_chain_processor docs =
        ⟨"FAILED_CRITICAL_ERROR", []⟩) ∧
    main_validation_chain_processor
        [⟨"cedula.pdf", "CEDULA_IDENTIDAD", "JVBERi0x", "application/pdf"⟩,
         ⟨"deuda.pdf", "CERTIFICADO_DEUDA", "JVBERi0x", "application/pdf"⟩] =
      ⟨"FAILED_CRITICAL_ERROR", []⟩ := by
  constructor
  · intro docs hne
    match docs, hne with
    | _ :: _, _ => rfl
  · rfl

/-- Witness for c4_failure_isolation_code_bug: a concrete one-document
request is non-empty and is swallowed whole. -/
theorem c4_failure_isolation_code_bug_witness :
    ([(⟨"cedula.pdf", "CEDULA_IDENTIDAD", "JVBERi0x", "application/pdf"⟩ :
        DocumentBase64)] ≠ []) ∧
    main_validation_chain_processor
        [⟨"cedula.pdf", "CEDULA_IDENTIDAD", "JVBERi0x", "application/pdf"⟩] =
      ⟨"FAILED_CRITICAL_ERROR", []⟩ :=
  ⟨by decide,
    c4_failure_isolation_code_bug.1
      [⟨"cedula.pdf", "CEDULA_IDENTIDAD", "JVBERi0x", "application/pdf"⟩]
      (by decide)⟩

/-! ## C8: finding shape -/

/-- C8: the spec says every finding attached to a document of the final
document_results — including documents stopped at preprocessing,
classification or extraction — carries a field, a message and a severity in
the set containing CRITICAL and MANUAL_REVIEW.  In the code the quantifier
is empty and the mechanism behind it contradicts the spec twice over: no
request ever attaches a finding, document_results being empty for every
payload (an empty request aggregates the empty map, a non-empty one dies in
preprocessing before its loop), and the stage-failure findings the loop
would attach (orchestrator lines 131, 146 and 178) are dicts built with only
field and message — no severity at all.  This theorem evaluates the first
fact: document_results of every request is empty, so the claimed shaped
findings never exist. -/
theorem c8_finding_shape_code_bug :
    ∀ docs : List DocumentBase64,
      (main_validation_chain_processor docs).document_results = [] := by
  intro docs
  cases docs with
  | nil => rfl
  | cons d rest => rfl

/-! ## C9: unsupported format short-circuit -/

/-- C9 counterexample: the support decision never consults the declared
content type — a file whose content type text/plain is unsupported but whose
filename ends in .pdf is fully preprocessed as a digital PDF — and in the
real wiring no document of any request is ever recorded as a failed
per-document result: a one-document request returns FAILED_CRITICAL_ERROR
with empty document_results, so the claimed per-document record never
exists. -/
theorem c9_unsupported_format_counterexample :
    supportedContentKind "text/plain" = false ∧
    (preprocess_one ⟨"cedula.pdf", .digital "RUN 12.345.678-5", none⟩).status =
      "processed_digital_pdf" ∧
    main_validation_chain_processor
        [⟨"notas.txt", "OTRO", "QUJD", "text/plain"⟩] =
      ⟨"FAILED_CRITICAL_ERROR", []⟩ :=
  ⟨by decide, by decide, rfl⟩

/-- C9 (amended): the preprocessing support decision is keyed on the
lowercased filename extension, never on the declared content type: a path
whose extension is outside the set of .pdf, .jpg, .jpeg and .png yields
status unsupported_format and no extracted text, so such a file could reach
no later stage; but nothing is ever recorded as a per-document result,
because every non-empty payload dies in preprocessing and the orchestrator
returns FAILED_CRITICAL_ERROR with empty document_results. -/
theorem c9_unsupported_extension_short_circuit (d : PreDoc)
    (h : (charLower (splitextExt d.path) == ".pdf".toList ||
          charLower (splitextExt d.path) == ".jpg".toList ||
          charLower (splitextExt d.path) == ".jpeg".toList ||
          charLower (splitextExt d.path) == ".png".toList) = false) :
    (preprocess_one d).status = "unsupported_format" ∧
    (preprocess_one d).raw_text = none ∧
    ∀ docs : List DocumentBase64, docs ≠ [] →
      main_validation_chain_processor docs = ⟨"FAILED_CRITICAL_ERROR", []⟩ := by
  simp only [Bool.or_eq_false_iff] at h
  obtain ⟨⟨⟨h1, h2⟩, h3⟩, h4⟩ := h
  have h1p : charLower (splitextExt d.path) ≠ ['.', 'p', 'd', 'f'] := by simpa using h1
  have h2p : charLower (splitextExt d.path) ≠ ['.', 'j', 'p', 'g'] := by simpa using h2
  have h3p : charLower (splitextExt d.path) ≠ ['.', 'j', 'p', 'e', 'g'] := by simpa using h3
  have h4p : charLower (splitextExt d.path) ≠ ['.', 'p', 'n', 'g'] := by simpa using h4
  refine ⟨?_, ?_, ?_⟩
  · simp [preprocess_one, h1p, h2p, h3p, h4p]
  · simp [preprocess_one, h1p, h2p, h3p, h4p]
  · intro docs hne
    match docs, hne with
    | _ :: _, _ => rfl

/-- Witness for c9_unsupported_extension_short_circuit on a .DOCX file and a
one-document request. -/
theorem c9_unsupported_extension_short_circuit_witness :
    (charLower (splitextExt "contrato.DOCX") == ".pdf".toList ||
      charLower (splitextExt "contrato.DOCX") == ".jpg".toList ||
      charLower (splitextExt "contrato.DOCX") == ".jpeg".toList ||
      charLower (splitextExt "contrato.DOCX") == ".png".toList) = false ∧
    (preprocess_one ⟨"contrato.DOCX", .digital "texto", some "texto"⟩).status =
      "unsupported_format" ∧
    (preprocess_one ⟨"contrato.DOCX", .digital "texto", some "texto"⟩).raw_text = none ∧
    ([(⟨"contrato.DOCX", "OTRO", "QUJD", "application/msword"⟩ :
        DocumentBase64)] ≠ []) ∧
    main_validation_chain_processor
        [⟨"contrato.DOCX", "OTRO", "QUJD", "application/msword"⟩] =
      ⟨"FAILED_CRITICAL_ERROR", []⟩ :=
  ⟨by decide,
    (c9_unsupported_extension_short_circuit
        ⟨"contrato.DOCX", .digital "texto", some "texto"⟩ (by decide)).1,
    (c9_unsupported_extension_short_circuit
        ⟨"contrato.DOCX", .digital "texto", some "texto"⟩ (by decide)).2.1,
    by decide,
    (c9_unsupported_extension_short_circuit
        ⟨"contrato.DOCX", .digital "texto", some "texto"⟩ (by decide)).2.2
      [⟨"contrato.DOCX", "OTRO", "QUJD", "application/msword"⟩] (by decide)⟩

end Validador
